import Mathlib

/-!
Verification of the nginx-access-log analytics pipeline:
log-line parsing, timestamp normalization, IP geolocation resolution
(cache and database-swap lifecycle), traffic-source / device
classification, and the aggregation invariants of the two report
endpoints.  JavaScript string primitives (`split`, `includes`,
`padStart`, `replace`, `toLowerCase`) are embedded as executable
functions on `List Char`.
-/

namespace WebLog

/-- Whitespace for the purposes of the `\s` / `\S` character classes in
the log-line regular expression: the full JavaScript WhiteSpace and
LineTerminator set — tab, LF, VT, FF, CR, space, NBSP, Ogham space
mark, the U+2000..U+200A spaces, LS, PS, NNBSP, MMSP, ideographic
space, and BOM. -/
def isWs (c : Char) : Bool :=
  c = '\t' || c = '\n' || c = '\u000B' || c = '\u000C' || c = '\r' || c = ' ' ||
  c = '\u00A0' || c = '\u1680' || ('\u2000' ≤ c && c ≤ '\u200A') ||
  c = '\u2028' || c = '\u2029' || c = '\u202F' || c = '\u205F' ||
  c = '\u3000' || c = '\uFEFF'

/-- Numeric value of a decimal digit character. -/
def digitVal (c : Char) : Nat := c.toNat - 48

/-- Value of a list of decimal digit characters (most significant first),
as computed by `parseInt` on an all-digit string. -/
def natOfDigits (l : List Char) : Nat :=
  l.foldl (fun acc c => acc * 10 + digitVal c) 0

/-- Decimal digit character for a value below 10. -/
def digitChar (n : Nat) : Char := Char.ofNat (48 + n % 10)

/-- Two-digit zero-padded decimal rendering. -/
def pad2 (n : Nat) : List Char := [digitChar (n / 10), digitChar n]

/-- Three-digit zero-padded decimal rendering. -/
def pad3 (n : Nat) : List Char := [digitChar (n / 100), digitChar (n / 10), digitChar n]

/-- Four-digit zero-padded decimal rendering. -/
def pad4 (n : Nat) : List Char :=
  [digitChar (n / 1000), digitChar (n / 100), digitChar (n / 10), digitChar n]

/-- JavaScript `String.prototype.split` with a single-character
separator: every occurrence of the separator produces a boundary, and
the result is never empty (`"".split(c)` is `[""]`). -/
def jsSplit (sep : Char) : List Char → List (List Char)
  | [] => [[]]
  | c :: r =>
    if c = sep then [] :: jsSplit sep r
    else
      match jsSplit sep r with
      | h :: t => (c :: h) :: t
      | [] => [[c]]

/-- JavaScript `String.prototype.includes`: substring containment. -/
def hasInfix (needle : List Char) : List Char → Bool
  | [] => needle.isEmpty
  | c :: t => needle.isPrefixOf (c :: t) || hasInfix needle t

/-- Lifting of `String.prototype.includes` to `String`. -/
def sIncludes (hay needle : String) : Bool := hasInfix needle.toList hay.toList

/-- JavaScript `String.prototype.toLowerCase` (ASCII range, which is all
the classifier tokens use). -/
def jsToLower (s : String) : String := String.mk (s.toList.map Char.toLower)

/-- JavaScript `Array.prototype.join(':')` on a list of chunks. -/
def joinColon : List (List Char) → List Char
  | [] => []
  | [x] => x
  | x :: y :: t => x ++ ':' :: joinColon (y :: t)

/-- JavaScript `String.prototype.replace(':', '')` — removes only the
first occurrence. -/
def jsReplaceFirst (sep : Char) : List Char → List Char
  | [] => []
  | c :: t => if c = sep then t else c :: jsReplaceFirst sep t

/-- JavaScript `String.prototype.padStart(2, '0')`. -/
def padStart2 (l : List Char) : List Char :=
  if l.length ≥ 2 then l else
  if l.length = 1 then '0' :: l else ['0', '0']

/-! ## Calendar arithmetic (proleptic Gregorian, as used by JavaScript `Date`) -/

/-- Leap-year test of the Gregorian calendar. -/
def isLeap (y : Int) : Bool := (y % 4 = 0 && y % 100 ≠ 0) || y % 400 = 0

/-- Number of days in a month (`m` is 1-based). -/
def daysInMonth (y : Int) (m : Nat) : Nat :=
  if m = 2 then (if isLeap y then 29 else 28)
  else if m = 4 || m = 6 || m = 9 || m = 11 then 30 else 31

/-- Days since the Unix epoch (1970-01-01) of a civil date, the standard
era-based conversion. -/
def daysFromCivil (y : Int) (m d : Int) : Int :=
  let y' : Int := if m ≤ 2 then y - 1 else y
  let era : Int := (if 0 ≤ y' then y' else y' - 399) / 400
  let yoe : Int := y' - era * 400
  let mp : Int := if 2 < m then m - 3 else m + 9
  let doy : Int := (153 * mp + 2) / 5 + d - 1
  let doe : Int := yoe * 365 + yoe / 4 - yoe / 100 + doy
  era * 146097 + doe - 719468

/-- Civil date (year, month, day) from days since the Unix epoch;
inverse of `daysFromCivil`. -/
def civilFromDays (z0 : Int) : Int × Nat × Nat :=
  let z : Int := z0 + 719468
  let era : Int := (if 0 ≤ z then z else z - 146096) / 146097
  let doe : Int := z - era * 146097
  let yoe : Int := (doe - doe / 1460 + doe / 36524 - doe / 146096) / 365
  let y : Int := yoe + era * 400
  let doy : Int := doe - (365 * yoe + yoe / 4 - yoe / 100)
  let mp : Int := (5 * doy + 2) / 153
  let d : Int := doy - (153 * mp + 2) / 5 + 1
  let m : Int := if mp < 10 then mp + 3 else mp - 9
  (if m ≤ 2 then y + 1 else y, m.toNat, d.toNat)

/-- Epoch milliseconds of a civil date-time with a UTC offset in
minutes. -/
def epochOfCivil (y : Int) (mo d h mi s ms : Nat) (offMin : Int) : Int :=
  daysFromCivil y mo d * 86400000 + (h * 3600 + mi * 60 + s : Nat) * 1000 + ms
    - offMin * 60000

/-- JavaScript `Date.prototype.toISOString` for instants whose UTC year
lies in 0..9999 (the four-digit range; the pipeline only produces such
instants). -/
def toISOStringOf (ems : Int) : String :=
  let days : Int := Int.fdiv ems 86400000
  let rem : Int := ems - days * 86400000
  let (y, mo, d) := civilFromDays days
  let remN : Nat := rem.toNat
  let h : Nat := remN / 3600000
  let mi : Nat := remN / 60000 % 60
  let s : Nat := remN / 1000 % 60
  let ms : Nat := remN % 1000
  String.mk (pad4 y.toNat ++ '-' :: pad2 mo ++ '-' :: pad2 d ++ 'T' :: pad2 h
    ++ ':' :: pad2 mi ++ ':' :: pad2 s ++ '.' :: pad3 ms ++ ['Z'])

/-- Timezone-designator suffix of an ISO date-time string: `Z`, `±HHMM`
or `±HH:MM`, yielding the offset in minutes. -/
def parseTz : List Char → Option Int
  | ['Z'] => some 0
  | [sg, a, b, c, d] =>
    if (sg = '+' || sg = '-') && a.isDigit && b.isDigit && c.isDigit && d.isDigit then
      if natOfDigits [a, b] ≤ 23 && natOfDigits [c, d] ≤ 59 then
        some ((if sg = '-' then -1 else 1) *
          (natOfDigits [a, b] * 60 + natOfDigits [c, d] : Nat))
      else none
    else none
  | [sg, a, b, ':', c, d] =>
    if (sg = '+' || sg = '-') && a.isDigit && b.isDigit && c.isDigit && d.isDigit then
      if natOfDigits [a, b] ≤ 23 && natOfDigits [c, d] ≤ 59 then
        some ((if sg = '-' then -1 else 1) *
          (natOfDigits [a, b] * 60 + natOfDigits [c, d] : Nat))
      else none
    else none
  | _ => none

/-- Model of the JavaScript `Date` constructor on the strings this
pipeline builds: the ECMA-262 date-time string format
`YYYY-MM-DDTHH:mm:ss.SSS` followed by a timezone designator (`Z`,
`±HHMM` as accepted by V8, or `±HH:MM`), with calendar-validated
fields.  Out-of-range or non-numeric components give `none` (JS
`NaN`-dated `Invalid Date`).  Strings without any timezone designator
(which JS would interpret in server-local time) are modelled as
invalid; the pipeline never builds one from a timestamp that has a
timezone token. -/
def jsDateParse : List Char → Option Int
  | y1 :: y2 :: y3 :: y4 :: '-' :: m1 :: m2 :: '-' :: d1 :: d2 :: 'T' ::
      h1 :: h2 :: ':' :: i1 :: i2 :: ':' :: s1 :: s2 :: '.' :: p1 :: p2 :: p3 :: tz =>
    if y1.isDigit && y2.isDigit && y3.isDigit && y4.isDigit &&
       m1.isDigit && m2.isDigit && d1.isDigit && d2.isDigit &&
       h1.isDigit && h2.isDigit && i1.isDigit && i2.isDigit &&
       s1.isDigit && s2.isDigit && p1.isDigit && p2.isDigit && p3.isDigit then
      let y : Nat := natOfDigits [y1, y2, y3, y4]
      let mo : Nat := natOfDigits [m1, m2]
      let d : Nat := natOfDigits [d1, d2]
      let h : Nat := natOfDigits [h1, h2]
      let mi : Nat := natOfDigits [i1, i2]
      let s : Nat := natOfDigits [s1, s2]
      let ms : Nat := natOfDigits [p1, p2, p3]
      if 1 ≤ mo && mo ≤ 12 && 1 ≤ d && d ≤ daysInMonth y mo &&
         h ≤ 23 && mi ≤ 59 && s ≤ 59 then
        (parseTz tz).map (epochOfCivil y mo d h mi s ms)
      else none
    else none
  | _ => none

/-! ## Timestamp normalizer (`parseTimestamp` in the log parser) -/

/-- The fixed month-abbreviation table of `parseTimestamp`
(`months[month]` on the twelve-key object). -/
def monthsTable : List (List Char × List Char) :=
  [("Jan".toList, "01".toList), ("Feb".toList, "02".toList),
   ("Mar".toList, "03".toList), ("Apr".toList, "04".toList),
   ("May".toList, "05".toList), ("Jun".toList, "06".toList),
   ("Jul".toList, "07".toList), ("Aug".toList, "08".toList),
   ("Sep".toList, "09".toList), ("Oct".toList, "10".toList),
   ("Nov".toList, "11".toList), ("Dec".toList, "12".toList)]

/-- Table lookup for the month abbreviation. -/
def monthsLookup (l : List Char) : Option (List Char) :=
  (monthsTable.find? (fun p => p.1 = l)).map Prod.snd

/-- The throwing body of `parseTimestamp`: splits the vendor timestamp
into date / time / timezone tokens, rebuilds an ISO-like string, and
interprets it with the `Date` constructor.  `none` is the thrown-error
path, which the wrapper replaces by the current time. -/
def parseTimestampCore (ts : String) : Option String :=
  match jsSplit ' ' ts.toList with
  | [datePart, timezone] =>
    match jsSplit '/' datePart with
    | day :: month :: yearTime :: _ =>
      if day = [] || month = [] || yearTime = [] then none else
      match jsSplit ':' yearTime with
      | year :: timeParts =>
        let time := joinColon timeParts
        if year = [] || time = [] then none else
        match jsSplit ':' time with
        | hour :: minute :: second :: _ =>
          if hour = [] || minute = [] || second = [] then none else
          match monthsLookup month with
          | none => none
          | some monthNum =>
            let dateStr := year ++ '-' :: monthNum ++ '-' :: padStart2 day ++ 'T' ::
              hour ++ ':' :: minute ++ ':' :: second ++ '.' :: '0' :: '0' :: '0' ::
              jsReplaceFirst ':' timezone
            match jsDateParse dateStr with
            | none => none
            | some ems => some (toISOStringOf ems)
        | _ => none
      | [] => none
    | _ => none
  | _ => none

/-- Function `parseTimestamp`: on any failure of the core the current wall-clock
time `now` (already rendered by `new Date().toISOString()`) is returned
instead. -/
def parseTimestamp (now : String) (ts : String) : String :=
  (parseTimestampCore ts).getD now

/-! ## Log-line parser (`parseNginxLog`)

The line is matched against the anchored regular expression

  `^(\S+) \S+ \S+ \[([^\]]+)\] "([^\"]*)" (\d+) (\d+)(?: "([^\"]*)" "([^\"]*)"|.*)`

Every quantifier in it is followed by a literal outside its character
class, so backtracking never changes the outcome and the match is
computed by the deterministic scanners below. -/

/-- Scanner for `\S+` followed by the literal space: the maximal non-whitespace run,
which must be non-empty, then a single `' '`. -/
def takeTok (l : List Char) : Option (List Char × List Char) :=
  if l.takeWhile (fun c => !isWs c) ≠ [] ∧
     (l.dropWhile (fun c => !isWs c)).head? = some ' '
  then some (l.takeWhile (fun c => !isWs c), (l.dropWhile (fun c => !isWs c)).tail)
  else none

/-- A required literal character. -/
def expectChar (c : Char) (l : List Char) : Option (List Char) :=
  if l.head? = some c then some l.tail else none

/-- Scanner for `[^stop]+` followed by the literal `stop` (non-empty run). -/
def takeDelim1 (stop : Char) (l : List Char) : Option (List Char × List Char) :=
  if l.takeWhile (fun c => c != stop) ≠ [] ∧
     (l.dropWhile (fun c => c != stop)).head? = some stop
  then some (l.takeWhile (fun c => c != stop), (l.dropWhile (fun c => c != stop)).tail)
  else none

/-- Scanner for `[^stop]*` followed by the literal `stop` (possibly empty run). -/
def takeDelim0 (stop : Char) (l : List Char) : Option (List Char × List Char) :=
  if (l.dropWhile (fun c => c != stop)).head? = some stop
  then some (l.takeWhile (fun c => c != stop), (l.dropWhile (fun c => c != stop)).tail)
  else none

/-- Scanner for `(\d+)`: maximal non-empty digit run. -/
def takeDigits1 (l : List Char) : Option (List Char × List Char) :=
  if l.takeWhile Char.isDigit ≠ []
  then some (l.takeWhile Char.isDigit, l.dropWhile Char.isDigit)
  else none

/-- The optional quoted tail ` "([^\"]*)" "([^\"]*)"`; when it does not
match, the alternative `.*` consumes the rest and both groups are
undefined. -/
def matchTail (l : List Char) : Option (List Char × List Char) := do
  let r1 ← expectChar ' ' l
  let r2 ← expectChar '"' r1
  let (ref, r3) ← takeDelim0 '"' r2
  let r4 ← expectChar ' ' r3
  let r5 ← expectChar '"' r4
  let (ua, _) ← takeDelim0 '"' r5
  pure (ref, ua)

/-- Captured groups of the log-line regular expression: origin,
timestamp, request, status, bytes, and the optional referer/user-agent
pair. -/
structure NginxGroups where
  orig : List Char
  ts : List Char
  req : List Char
  st : List Char
  byt : List Char
  tail : Option (List Char × List Char)

/-- The anchored match of the log-line regular expression. -/
def matchNginx (l : List Char) : Option NginxGroups := do
  let (orig, r1) ← takeTok l
  let (_, r2) ← takeTok r1
  let (_, r3) ← takeTok r2
  let r4 ← expectChar '[' r3
  let (ts, r5) ← takeDelim1 ']' r4
  let r6 ← expectChar ' ' r5
  let r7 ← expectChar '"' r6
  let (req, r8) ← takeDelim0 '"' r7
  let r9 ← expectChar ' ' r8
  let (st, r10) ← takeDigits1 r9
  let r11 ← expectChar ' ' r10
  let (byt, _r12) ← takeDigits1 r11
  pure ⟨orig, ts, req, st, byt, matchTail _r12⟩

/-- Character class of the protocol pattern of legacy `url.parse`
(the regular expression matching a scheme prefix): ASCII letters,
digits, `.`, `+` and `-`. -/
def isProtoChar (c : Char) : Bool :=
  ('a' ≤ c && c ≤ 'z') || ('A' ≤ c && c ≤ 'Z') || ('0' ≤ c && c ≤ '9') ||
  c = '.' || c = '+' || c = '-'

/-- Leading scheme of legacy `url.parse`: a nonempty run of protocol
characters followed by `:`.  Returns the lowercased scheme (colon
included, as `url.parse` stores it) and the remainder after the
colon, or `none` when the input has no scheme prefix. -/
def takeProto (p : List Char) : Option (List Char × List Char) :=
  let run := p.takeWhile isProtoChar
  if run.isEmpty then none
  else match p.drop run.length with
    | ':' :: rest => some (run.map Char.toLower ++ [':'], rest)
    | _ => none

/-- The schemes legacy `url.parse` treats as slashed: they take a
`//authority` part, and an empty path after a nonempty host defaults
to `/`. -/
def slashedProtocols : List (List Char) :=
  [String.toList "http:", String.toList "https:", String.toList "ftp:",
   String.toList "gopher:", String.toList "file:", String.toList "ws:",
   String.toList "wss:"]

/-- Preprocessing of legacy `url.parse`: leading and trailing
control-or-space characters are trimmed and interior tab, line feed
and carriage return characters are removed. -/
def urlTrim (p : List Char) : List Char :=
  ((((p.dropWhile (fun c => c.toNat ≤ 32)).reverse.dropWhile
      (fun c => c.toNat ≤ 32)).reverse).filter
    (fun c => c ≠ '\t' && c ≠ '\n' && c ≠ '\r'))

/-- Pathname extraction of legacy `url.parse` after preprocessing.
A scheme-less input is all path: the part before the first `?` or
`#`, `none` when empty (`url.parse` is called with
`slashesDenoteHost` false, so a leading `//` does not denote a host;
the `//user@host` authority form is not modeled, and theorems below
exclude it by hypothesis).  The hostless scheme `javascript:` also
keeps its remainder as the path.  Otherwise the authority is parsed
whenever slashes follow the scheme or the scheme is not a slashed
one: the host runs to the first `/`, `?` or `#`, the path is what
remains before the first `?` or `#`, and for a slashed scheme with a
nonempty host an empty path defaults to `/` (auth splitting at `@`
and invalid-host re-splitting are not modeled). -/
def urlPathnameCore (p : List Char) : Option (List Char) :=
  match takeProto p with
  | some (proto, rest) =>
      let hostless := proto = String.toList "javascript:"
      let slashes := rest.take 2 = ['/', '/']
      if hostless then
        let path := rest.takeWhile (fun c => c ≠ '?' && c ≠ '#')
        if path.isEmpty then none else some path
      else if slashes || !slashedProtocols.contains proto then
        let rest1 := if slashes then rest.drop 2 else rest
        let host := rest1.takeWhile (fun c => c ≠ '/' && c ≠ '?' && c ≠ '#')
        let rest2 := rest1.drop host.length
        let path := rest2.takeWhile (fun c => c ≠ '?' && c ≠ '#')
        if !path.isEmpty then some path
        else if slashedProtocols.contains proto && !host.isEmpty then some ['/']
        else none
      else
        let path := rest.takeWhile (fun c => c ≠ '?' && c ≠ '#')
        if path.isEmpty then none else some path
  | none =>
      let path := p.takeWhile (fun c => c ≠ '?' && c ≠ '#')
      if path.isEmpty then none else some path

/-- Model of `url.parse(path).pathname || path`: the extracted
pathname, falling back to the raw path when `pathname` is `null` (the
model never produces an empty pathname, so the falsy-empty-string
case of `||` cannot fire). -/
def pathnameOr (p : List Char) : String :=
  match urlPathnameCore (urlTrim p) with
  | some q => String.mk q
  | none => String.mk p

/-- Function `parseRequest`: destructure `request.split(' ')` into method and
path with the `UNKNOWN` / `/` defaults. -/
def parseRequest (req : List Char) : String × String :=
  let parts := jsSplit ' ' req
  let method := parts.headD []
  let path? := parts.get? 1
  (if method.isEmpty then "UNKNOWN" else String.mk method,
   match path? with
   | none => "/"
   | some p => if p.isEmpty then "/" else pathnameOr p)

/-- Resolved location (the object built by `queryIPLocation`);
coordinates are carried opaquely as integers. -/
structure IpLoc where
  country : Option String
  region : Option String
  city : Option String
  latitude : Option Int
  longitude : Option Int
deriving DecidableEq

/-- The record returned by `parseNginxLog`. -/
structure LogRecord where
  ip : String
  ipLocation : Option IpLoc
  timestamp : String
  method : String
  path : String
  status : Nat
  bytes : Nat
  referer : String
  userAgent : String
deriving DecidableEq

/-- The quoted-group default: `matches[i] || '-'` (an absent or empty
group becomes `-`). -/
def quotedOr (g : Option (List Char)) : String :=
  match g with
  | none => "-"
  | some l => if l.isEmpty then "-" else String.mk l

/-- Function `parseNginxLog`: match the line, resolve the origin's location
(`resolve` stands for the awaited `queryIPLocation`), normalize the
timestamp (with `now` the wall-clock fallback), and build the record. -/
def parseNginxLog (resolve : String → Option IpLoc) (now : String)
    (line : String) : Option LogRecord :=
  match matchNginx line.toList with
  | none => none
  | some g =>
    let request := parseRequest g.req
    some {
      ip := String.mk g.orig
      ipLocation := resolve (String.mk g.orig)
      timestamp := parseTimestamp now (String.mk g.ts)
      method := request.1
      path := request.2
      status := natOfDigits g.st
      bytes := natOfDigits g.byt
      referer := quotedOr (g.tail.map Prod.fst)
      userAgent := quotedOr (g.tail.map Prod.snd) }

/-! ## Traffic-source and device classification (the `if/else` chains of
`/api/metrics` and `/api/traffic`) -/

inductive Source | direct | search | social | referral
deriving DecidableEq

inductive Engine | google | bing | baidu | sogou | so
deriving DecidableEq

inductive Device | desktop | mobile | tablet | bot | other
deriving DecidableEq

/-- Referer matches one of the fixed search-engine domain substrings. -/
def searchPred (r : String) : Bool :=
  sIncludes r "google." || sIncludes r "bing." || sIncludes r "baidu." ||
  sIncludes r "sogou." || sIncludes r "so.com"

/-- Referer matches one of the fixed social-domain substrings. -/
def socialPred (r : String) : Bool :=
  sIncludes r "facebook." || sIncludes r "twitter." || sIncludes r "weibo."

/-- The traffic-source chain: direct when the referer is empty (falsy)
or `-`, then search, then social, then referral. -/
def classifySource (r : String) : Source :=
  if r = "" || r = "-" then .direct
  else if searchPred r then .search
  else if socialPred r then .social
  else .referral

/-- The search-engine sub-tally chain inside the search branch. -/
def classifyEngine (r : String) : Option Engine :=
  if sIncludes r "google." then some .google
  else if sIncludes r "bing." then some .bing
  else if sIncludes r "baidu." then some .baidu
  else if sIncludes r "sogou." then some .sogou
  else if sIncludes r "so.com" then some .so
  else none

/-- Crawler/bot token set, checked on the lower-cased user agent. -/
def botPred (u : String) : Bool :=
  sIncludes u "bot" || sIncludes u "spider" || sIncludes u "crawler" ||
  sIncludes u "googlebot" || sIncludes u "baiduspider" || sIncludes u "bingbot" ||
  sIncludes u "yandexbot" || sIncludes u "slurp" || sIncludes u "duckduckbot" ||
  sIncludes u "python-requests" || sIncludes u "go-http-client" ||
  sIncludes u "censysinspect"

/-- Tablet token set (includes android-without-mobile). -/
def tabletPred (u : String) : Bool :=
  sIncludes u "ipad" || sIncludes u "tablet" ||
  (sIncludes u "android" && !sIncludes u "mobile") ||
  sIncludes u "kindle" || sIncludes u "playbook"

/-- Mobile token set (includes android-with-mobile). -/
def mobilePred (u : String) : Bool :=
  sIncludes u "iphone" || sIncludes u "ipod" ||
  (sIncludes u "android" && sIncludes u "mobile") ||
  sIncludes u "windows phone" || sIncludes u "blackberry" ||
  sIncludes u "webos" || sIncludes u "iemobile" || sIncludes u "mobile"

/-- Desktop token set, excluding mobile/android signals. -/
def desktopPred (u : String) : Bool :=
  sIncludes u "windows" || sIncludes u "macintosh" || sIncludes u "x11" ||
  (sIncludes u "linux" && !sIncludes u "android") || sIncludes u "ubuntu" ||
  (sIncludes u "firefox" && !sIncludes u "mobile") ||
  (sIncludes u "chrome" && !sIncludes u "mobile" && !sIncludes u "android")

/-- The device chain on the lower-cased user agent: bot, then tablet,
then mobile, then desktop, then other. -/
def classifyDevice (ua : String) : Device :=
  let u := jsToLower ua
  if botPred u then .bot
  else if tabletPred u then .tablet
  else if mobilePred u then .mobile
  else if desktopPred u then .desktop
  else .other

/-! ## Aggregation counters -/

structure EngineCounts where
  google : Nat := 0
  bing : Nat := 0
  baidu : Nat := 0
  sogou : Nat := 0
  so : Nat := 0
deriving DecidableEq

structure SourceCounts where
  direct : Nat := 0
  search : Nat := 0
  referral : Nat := 0
  social : Nat := 0
  searchEngines : EngineCounts := {}
deriving DecidableEq

structure DeviceCounts where
  desktop : Nat := 0
  mobile : Nat := 0
  tablet : Nat := 0
  bot : Nat := 0
  other : Nat := 0
deriving DecidableEq

/-- One record's contribution to the source tallies (the body of the
`forEach` over the logs). -/
def bumpSource (s : SourceCounts) (r : String) : SourceCounts :=
  match classifySource r with
  | .direct => { s with direct := s.direct + 1 }
  | .search =>
    let s' := { s with search := s.search + 1 }
    match classifyEngine r with
    | some .google => { s' with searchEngines.google := s'.searchEngines.google + 1 }
    | some .bing => { s' with searchEngines.bing := s'.searchEngines.bing + 1 }
    | some .baidu => { s' with searchEngines.baidu := s'.searchEngines.baidu + 1 }
    | some .sogou => { s' with searchEngines.sogou := s'.searchEngines.sogou + 1 }
    | some .so => { s' with searchEngines.so := s'.searchEngines.so + 1 }
    | none => s'
  | .social => { s with social := s.social + 1 }
  | .referral => { s with referral := s.referral + 1 }

/-- One record's contribution to the device tallies. -/
def bumpDevice (d : DeviceCounts) (ua : String) : DeviceCounts :=
  match classifyDevice ua with
  | .bot => { d with bot := d.bot + 1 }
  | .tablet => { d with tablet := d.tablet + 1 }
  | .mobile => { d with mobile := d.mobile + 1 }
  | .desktop => { d with desktop := d.desktop + 1 }
  | .other => { d with other := d.other + 1 }

def sourcesOf (logs : List LogRecord) : SourceCounts :=
  logs.foldl (fun acc l => bumpSource acc l.referer) {}

def devicesOf (logs : List LogRecord) : DeviceCounts :=
  logs.foldl (fun acc l => bumpDevice acc l.userAgent) {}

def sumSources (s : SourceCounts) : Nat := s.direct + s.search + s.social + s.referral

def sumEngines (e : EngineCounts) : Nat := e.google + e.bing + e.baidu + e.sogou + e.so

def sumDevices (d : DeviceCounts) : Nat :=
  d.desktop + d.mobile + d.tablet + d.bot + d.other

/-! ## The `/api/traffic` pipeline: valid-timestamp filter, sort, hourly
buckets, geographic distribution -/

/-- The `sortedLogs` pipeline: keep records whose timestamp yields a valid `Date`
(an empty/falsy timestamp also fails the parse), pair each with its
epoch instant, and sort ascending by it (`a.dateObj - b.dateObj`). -/
def sortedLogsOf (logs : List LogRecord) : List (LogRecord × Int) :=
  List.insertionSort (fun a b : LogRecord × Int => a.2 ≤ b.2)
    (logs.filterMap fun l => (jsDateParse l.timestamp.toList).map (fun ems => (l, ems)))

/-- Rendering `format(dateObj, 'yyyy-MM-dd HH:00')` in the server's timezone
(offset in minutes): the hourly bucket key. -/
def hourKeyString (tzMin : Int) (ems : Int) : String :=
  let localMs : Int := ems + tzMin * 60000
  let days : Int := Int.fdiv localMs 86400000
  let rem : Nat := (localMs - days * 86400000).toNat
  let (y, mo, d) := civilFromDays days
  String.mk (pad4 y.toNat ++ '-' :: pad2 mo ++ '-' :: pad2 d ++ ' ' ::
    pad2 (rem / 3600000) ++ ':' :: '0' :: ['0'])

/-- Bump a key of an insertion-ordered counting map (JS object with
string keys). -/
def bumpKey (k : String) : List (String × Nat) → List (String × Nat)
  | [] => [(k, 1)]
  | (k', n) :: t => if k' = k then (k', n + 1) :: t else (k', n) :: bumpKey k t

/-- The hourly visit counts of `/api/traffic`. -/
def hourlyOf (tzMin : Int) (logs : List LogRecord) : List (String × Nat) :=
  (sortedLogsOf logs).foldl (fun acc le => bumpKey (hourKeyString tzMin le.2) acc) []

def sumCounts (l : List (String × Nat)) : Nat := (l.map Prod.snd).sum

/-- The source tallies of `/api/traffic` (computed over `sortedLogs`). -/
def trafficSourcesOf (logs : List LogRecord) : SourceCounts :=
  sourcesOf ((sortedLogsOf logs).map Prod.fst)

/-- The device tallies of `/api/traffic` (computed over `sortedLogs`). -/
def trafficDevicesOf (logs : List LogRecord) : DeviceCounts :=
  devicesOf ((sortedLogsOf logs).map Prod.fst)

/-- JavaScript `x || dflt` for an optional string field: `undefined`
and the empty string both fall back. -/
def jsOrDefault (o : Option String) (dflt : String) : String :=
  match o with
  | none => dflt
  | some s => if s = "" then dflt else s

/-- Per-province accumulator: name, count, and insertion-ordered city
counts. -/
structure ProvAcc where
  name : String
  count : Nat
  cities : List (String × Nat)
deriving DecidableEq

/-- Add one record's region/city to the insertion-ordered province map. -/
def bumpProvince (region city : String) : List ProvAcc → List ProvAcc
  | [] => [⟨region, 1, [(city, 1)]⟩]
  | p :: t =>
    if p.name = region then ⟨p.name, p.count + 1, bumpKey city p.cities⟩ :: t
    else p :: bumpProvince region city t

/-- The body of the `for (const log of sortedLogs)` loop building the
geographic distribution: skip absent locations, default missing
region/city to the placeholder names, skip the `Error` / `Unknown`
regions. -/
def geoFold (acc : List ProvAcc) (l : LogRecord) : List ProvAcc :=
  match l.ipLocation with
  | none => acc
  | some loc =>
    let region := jsOrDefault loc.region "未知地区"
    let city := jsOrDefault loc.city "未知城市"
    if region = "Error" || region = "Unknown" then acc
    else bumpProvince region city acc

structure CityOut where
  name : String
  count : Nat
deriving DecidableEq

structure ProvOut where
  name : String
  count : Nat
  cities : List CityOut
deriving DecidableEq

/-- Descending-count order on city entries. -/
def cityGE (a b : CityOut) : Prop := b.count ≤ a.count

instance : DecidableRel cityGE := fun a b => Nat.decLe b.count a.count

instance : IsTotal CityOut cityGE := ⟨fun a b => Nat.le_total b.count a.count⟩

instance : IsTrans CityOut cityGE :=
  ⟨fun _ _ _ h1 h2 => Nat.le_trans h2 h1⟩

/-- Descending-count order on province entries. -/
def provGE (a b : ProvOut) : Prop := b.count ≤ a.count

instance : DecidableRel provGE := fun a b => Nat.decLe b.count a.count

instance : IsTotal ProvOut provGE := ⟨fun a b => Nat.le_total b.count a.count⟩

instance : IsTrans ProvOut provGE :=
  ⟨fun _ _ _ h1 h2 => Nat.le_trans h2 h1⟩

/-- The `geoDistribution.provinces` output of `/api/traffic`: fold the
sorted logs, render each province with its cities sorted by descending
count, then sort provinces by descending count (`sort` with comparator
`b.count - a.count` is stable descending insertion). -/
def geoProvinces (logs : List LogRecord) : List ProvOut :=
  let m := ((sortedLogsOf logs).map Prod.fst).foldl geoFold []
  List.insertionSort provGE
    (m.map fun p =>
      ⟨p.name, p.count,
        List.insertionSort cityGE (p.cities.map fun c => ⟨c.1, c.2⟩)⟩)

/-! ## Ingestion orchestrator (`readAllLogs`) and the endpoint outcome -/

/-- Function `readAllLogs`: for each configured path, a missing file contributes
nothing; an existing file is split into lines, empty lines are dropped,
and unparseable lines are dropped. -/
def readAllLogs (fsRead : String → Option String) (resolve : String → Option IpLoc)
    (now : String) (paths : List String) : List LogRecord :=
  paths.foldl (fun acc p =>
    match fsRead p with
    | none => acc
    | some content =>
      acc ++ ((jsSplit '\n' content.toList).filter (fun l => !l.isEmpty)).filterMap
        (fun l => parseNginxLog resolve now (String.mk l))) []

/-- The three caller-visible outcomes of an endpoint: explicit
no-data (HTTP 404), a populated result (HTTP 200), and a processing
failure (HTTP 500, the `catch` branch). -/
inductive ApiOutcome | noData | ok | failure
deriving DecidableEq

/-- The outcome decision of `/api/metrics` and `/api/traffic`: an empty
record set returns the explicit no-data outcome, otherwise a populated
result; the failure outcome is only produced by a thrown processing
error, which the pure model does not raise. -/
def apiOutcome (fsRead : String → Option String) (resolve : String → Option IpLoc)
    (now : String) (paths : List String) : ApiOutcome :=
  if (readAllLogs fsRead resolve now paths).length = 0 then .noData else .ok

/-! ## Location resolver (`queryIPLocation`) and database lifecycle -/

/-- Localized name pair of a maxmind record node (`names.zh` /
`names.en`). -/
structure RawNames where
  zh : Option String
  en : Option String
deriving DecidableEq

/-- The maxmind lookup result shape used by `queryIPLocation`. -/
structure RawRecord where
  country : Option RawNames
  subdivisions : List RawNames
  city : Option RawNames
  latitude : Option Int
  longitude : Option Int
deriving DecidableEq

/-- JavaScript `a?.names?.zh || b`-style fallback between two optional
strings (an empty string is falsy and also falls through). -/
def jsOrOpt (a b : Option String) : Option String :=
  match a with
  | some s => if s = "" then b else some s
  | none => b

/-- Build the cached location object from a maxmind result: prefer the
localized (`zh`) name, fall back to the English name. -/
def extractLocation (r : RawRecord) : IpLoc :=
  { country := jsOrOpt (r.country.bind (·.zh)) (r.country.bind (·.en))
    region := jsOrOpt ((r.subdivisions.head?).bind (·.zh))
      ((r.subdivisions.head?).bind (·.en))
    city := jsOrOpt (r.city.bind (·.zh)) (r.city.bind (·.en))
    latitude := r.latitude
    longitude := r.longitude }

/-- The `CACHE_DURATION` constant: 24 hours in milliseconds. -/
def CACHE_DURATION : Nat := 24 * 60 * 60 * 1000

/-- A cache entry: resolution instant and resolved location. -/
structure CacheEntry where
  timestamp : Nat
  data : IpLoc
deriving DecidableEq

/-- The resolver cache, a JS `Map` keyed by origin address. -/
def IpCache := List (String × CacheEntry)

/-- JS `Map.prototype.get`. -/
def mapGet (c : IpCache) (k : String) : Option CacheEntry :=
  match c with
  | [] => none
  | (k', e) :: t => if k' = k then some e else mapGet t k

/-- JS `Map.prototype.set`: replace in place or append. -/
def mapSet (c : IpCache) (k : String) (e : CacheEntry) : IpCache :=
  match c with
  | [] => [(k, e)]
  | (k', e') :: t => if k' = k then (k', e) :: t else (k', e') :: mapSet t k e

/-- Result of one `queryIPLocation` call: the returned location, the
cache afterwards, and whether the database was probed. -/
structure QueryResult where
  result : Option IpLoc
  cache : IpCache
  probed : Bool

/-- Function `queryIPLocation` over an explicit database function, wall-clock
instant, and cache: an invalid (empty, hence falsy) origin is rejected;
a cache entry younger than `CACHE_DURATION` is returned verbatim
without touching the database; otherwise the database is probed, a
missing origin returns `null` WITHOUT updating the cache, and a found
origin is extracted and stored in the cache with the current instant. -/
def queryIPLocation (db : String → Option RawRecord) (now : Nat)
    (cache : IpCache) (ip : String) : QueryResult :=
  if ip = "" then ⟨none, cache, false⟩
  else
    let probe : QueryResult :=
      match db ip with
      | none => ⟨none, cache, true⟩
      | some r =>
        let location := extractLocation r
        ⟨some location, mapSet cache ip ⟨now, location⟩, true⟩
    match mapGet cache ip with
    | some e => if now - e.timestamp < CACHE_DURATION then ⟨some e.data, cache, false⟩ else probe
    | none => probe

/-- The mutable state shared by the resolver and the auto-update job:
the open database handle (a handle identifier, `none` while closed)
and the location cache. -/
structure IPDBState where
  dbInstance : Option Nat
  ipCache : IpCache

/-- First statement of the successful-update branch of
`setupAutoUpdate`: `dbInstance = null` discards the old handle. -/
def swapDiscard (s : IPDBState) : IPDBState := { s with dbInstance := none }

/-- Second statement: `await initDBInstance()` opens the new database
file and installs the fresh handle. -/
def swapReopen (h : Nat) (s : IPDBState) : IPDBState := { s with dbInstance := some h }

/-- Third statement: `ipCache.clear()` empties the location cache. -/
def swapClear (s : IPDBState) : IPDBState := { s with ipCache := [] }

/-- The successful-update branch of `setupAutoUpdate`, in program
order: discard the handle, reopen against the new file, clear the
cache. -/
def autoUpdateSwap (h : Nat) (s : IPDBState) : IPDBState :=
  swapClear (swapReopen h (swapDiscard s))

/-! ## Specification-side definitions

These definitions follow the spec's words (not the source) and exist to
be compared with the code-derived definitions above. -/

/-- Ordered rule list evaluation: the category of the first matching
predicate, else the default (the spec's description of both
classification chains). -/
def firstMatch {α β : Type} (rules : List ((α → Bool) × β)) (dflt : β) (x : α) : β :=
  match rules with
  | [] => dflt
  | (p, v) :: t => if p x then v else firstMatch t dflt x

/-- Modelled from the spec: traffic-source classification as an ordered
(predicate, category) rule list — direct, then search, then social,
falling through to referral. -/
def specSource (r : String) : Source :=
  firstMatch
    [(fun r => r = "" || r = "-", Source.direct),
     (searchPred, Source.search),
     (socialPred, Source.social)] Source.referral r

/-- Modelled from the spec: device classification as an ordered rule
list on the lower-cased user agent — bot, then tablet, then mobile,
then desktop, then other. -/
def specDevice (ua : String) : Device :=
  firstMatch
    [(botPred, Device.bot),
     (tabletPred, Device.tablet),
     (mobilePred, Device.mobile),
     (desktopPred, Device.desktop)] Device.other (jsToLower ua)

/-- The default `NGINX_LOG_PATHS` configuration. -/
def NGINX_LOG_PATHS : List String := ["./logs/access.log", "./logs/access.log.1"]

/-- A resolver state with an open handle and one cached entry, as it
stands when the scheduled update fires. -/
def c4InitState : IPDBState :=
  ⟨some 0, [("1.2.3.4", ⟨0, ⟨some "中国", some "北京", some "北京", none, none⟩⟩)]⟩

/-- A database in which no origin is found. -/
def dbMiss : String → Option RawRecord := fun _ => none

/-- A concrete maxmind result fixture. -/
def recOne : RawRecord :=
  ⟨some ⟨some "中国", some "China"⟩, [⟨some "北京", some "Beijing"⟩],
    some ⟨some "北京", some "Beijing"⟩, some 40, some 116⟩

/-- A one-entry database fixture. -/
def dbOne : String → Option RawRecord := fun ip =>
  if ip = "1.2.3.4" then some recOne else none

/-- A record whose location is present but has no region or city
(a maxmind result with no subdivision/city names). -/
def recUnknownRegion : LogRecord :=
  { ip := "1.2.3.4", ipLocation := some ⟨none, none, none, none, none⟩,
    timestamp := "2024-01-10T10:00:00.000Z", method := "GET", path := "/",
    status := 200, bytes := 0, referer := "-", userAgent := "curl/8" }

/-- A record with no resolved location at all. -/
def recNoLocation : LogRecord :=
  { ip := "10.0.0.9", ipLocation := none,
    timestamp := "2024-01-10T10:00:00.000Z", method := "GET", path := "/",
    status := 200, bytes := 0, referer := "-", userAgent := "curl/8" }

/-- A vendor timestamp assembled from its tokens:
`day/mon/year:hh:mi:ss tz`. -/
def vendorTs (day mon year hh mi ss tz : List Char) : List Char :=
  day ++ ('/' :: (mon ++ ('/' :: (year ++ (':' :: (hh ++ (':' ::
    (mi ++ (':' :: (ss ++ (' ' :: tz)))))))))))

/-! # Theorems -/

/-! ## String-primitive lemmas -/

theorem jsSplit_ne_nil (sep : Char) (l : List Char) : jsSplit sep l ≠ [] := by
  cases l with
  | nil => simp [jsSplit]
  | cons c r =>
    simp only [jsSplit]
    split
    · simp
    · split <;> simp_all

/-- Splitting a separator-free list returns the list whole. -/
theorem jsSplit_of_not_mem {sep : Char} {l : List Char} (h : sep ∉ l) :
    jsSplit sep l = [l] := by
  induction l with
  | nil => rfl
  | cons c r ih =>
    simp only [List.mem_cons, not_or] at h
    simp only [jsSplit]
    rw [if_neg (fun hc => h.1 hc.symm), ih h.2]

/-- Splitting at an explicit separator occurrence: the separator-free
prefix becomes the first chunk. -/
theorem jsSplit_append {sep : Char} {xs : List Char} (ys : List Char)
    (h : sep ∉ xs) : jsSplit sep (xs ++ sep :: ys) = xs :: jsSplit sep ys := by
  induction xs with
  | nil => simp [jsSplit]
  | cons c r ih =>
    simp only [List.mem_cons, not_or] at h
    simp only [List.cons_append, jsSplit]
    rw [if_neg (fun hc => h.1 hc.symm)]
    simp only [List.append_eq, ih h.2]

theorem jsReplaceFirst_of_not_mem {sep : Char} {l : List Char} (h : sep ∉ l) :
    jsReplaceFirst sep l = l := by
  induction l with
  | nil => rfl
  | cons c t ih =>
    simp only [List.mem_cons, not_or] at h
    simp only [jsReplaceFirst]
    rw [if_neg (fun hc => h.1 hc.symm), ih h.2]

/-- Computing `takeWhile` over an append whose first part satisfies the predicate
throughout. -/
theorem takeWhile_append_of_all {p : Char → Bool} {xs : List Char} (ys : List Char)
    (h : ∀ c ∈ xs, p c) : (xs ++ ys).takeWhile p = xs ++ ys.takeWhile p := by
  induction xs with
  | nil => rfl
  | cons c t ih =>
    simp only [List.cons_append, List.takeWhile_cons, h c (by simp), if_true,
      List.cons.injEq, true_and]
    exact ih fun c hc => h c (by simp [hc])

/-- Computing `dropWhile` over an append whose first part satisfies the predicate
throughout. -/
theorem dropWhile_append_of_all {p : Char → Bool} {xs : List Char} (ys : List Char)
    (h : ∀ c ∈ xs, p c) : (xs ++ ys).dropWhile p = ys.dropWhile p := by
  induction xs with
  | nil => rfl
  | cons c t ih =>
    simp only [List.cons_append, List.dropWhile_cons]
    rw [h c (by simp)]
    exact ih fun c hc => h c (by simp [hc])

/-! ## Claim C4: database swap ordering and cache invalidation -/

/-- C4 counterexample: before the scheduled-update swap a handle is
open, yet after the swap's FIRST statement (`dbInstance = null`) — and
before the new database is opened — no handle is open while the stale
cache is still in place.  This refutes "the old database handle is
discarded only after the new one is confirmed open". -/
theorem c4_counterexample :
    c4InitState.dbInstance = some 0 ∧
    (swapDiscard c4InitState).dbInstance = none ∧
    (swapDiscard c4InitState).ipCache = c4InitState.ipCache :=
  ⟨rfl, rfl, rfl⟩

/-- C4 (corrected): the successful-update branch discards the old
handle FIRST (`dbInstance = null`), then opens the new database, then
clears the cache; so mid-swap there is a state with no open handle, but
after the swap completes the new handle is active and the entire
location cache has been invalidated. -/
theorem c4_swap_amended : ∀ (h : Nat) (s : IPDBState),
    (autoUpdateSwap h s).dbInstance = some h ∧
    (autoUpdateSwap h s).ipCache = [] ∧
    (swapDiscard s).dbInstance = none :=
  fun _ _ => ⟨rfl, rfl, rfl⟩

/-! ## Claim C6: traffic-source priority -/

/-- C6: traffic-source classification is total with the fixed priority
order — direct exactly when the referer is empty or `-`; otherwise
search whenever any search-engine substring occurs (regardless of
social substrings); otherwise social on a social substring; otherwise
referral.  It agrees with the spec's ordered rule list. -/
theorem c6_source_priority :
    (∀ r, classifySource r = specSource r) ∧
    (∀ r, classifySource r = Source.direct ↔ (r = "" ∨ r = "-")) ∧
    (∀ r, r ≠ "" → r ≠ "-" → searchPred r = true → classifySource r = Source.search) ∧
    (∀ r, r ≠ "" → r ≠ "-" → searchPred r = false → socialPred r = true →
      classifySource r = Source.social) ∧
    (∀ r, r ≠ "" → r ≠ "-" → searchPred r = false → socialPred r = false →
      classifySource r = Source.referral) := by
  refine ⟨fun r => rfl, fun r => ?_, fun r h1 h2 h3 => ?_, fun r h1 h2 h3 h4 => ?_,
    fun r h1 h2 h3 h4 => ?_⟩ <;>
    unfold classifySource <;> split_ifs <;> simp_all

/-- C6 witness: a referer containing both a search-engine domain and a
social domain classifies as search. -/
theorem c6_witness : classifySource "google.facebook.com" = Source.search :=
  c6_source_priority.2.2.1 "google.facebook.com" (by decide) (by decide) (by decide)

/-! ## Claim C5: device-classification priority -/

/-- C5 counterexample: the user agent `android mobile ipad` contains
both `android` and `mobile` and no bot token, yet classifies as tablet
(the `ipad` token wins in the tablet stage), refuting "any user-agent
containing both android and mobile (and no bot token) classifies as
mobile, never tablet". -/
theorem c5_counterexample :
    sIncludes (jsToLower "android mobile ipad") "android" = true ∧
    sIncludes (jsToLower "android mobile ipad") "mobile" = true ∧
    botPred (jsToLower "android mobile ipad") = false ∧
    classifyDevice "android mobile ipad" = Device.tablet ∧
    Device.tablet ≠ Device.mobile := by
  refine ⟨by decide, by decide, by decide, by decide, by decide⟩

/-- C5 (corrected): device classification is total, agrees with the
spec's ordered rule list (bot, tablet, mobile, desktop, other), and:
a bot token always wins; android-without-mobile (no bot token) is
always tablet; android-with-mobile (no bot token) is mobile PROVIDED
no other tablet token (`ipad`, `tablet`, `kindle`, `playbook`) occurs. -/
theorem c5_device_amended :
    (∀ ua, classifyDevice ua = specDevice ua) ∧
    (∀ ua, botPred (jsToLower ua) = true → classifyDevice ua = Device.bot) ∧
    (∀ ua, botPred (jsToLower ua) = false →
      sIncludes (jsToLower ua) "android" = true →
      sIncludes (jsToLower ua) "mobile" = false →
      classifyDevice ua = Device.tablet) ∧
    (∀ ua, botPred (jsToLower ua) = false →
      sIncludes (jsToLower ua) "android" = true →
      sIncludes (jsToLower ua) "mobile" = true →
      sIncludes (jsToLower ua) "ipad" = false →
      sIncludes (jsToLower ua) "tablet" = false →
      sIncludes (jsToLower ua) "kindle" = false →
      sIncludes (jsToLower ua) "playbook" = false →
      classifyDevice ua = Device.mobile) := by
  refine ⟨fun ua => rfl, fun ua h => ?_, fun ua h1 h2 h3 => ?_,
    fun ua h1 h2 h3 h4 h5 h6 h7 => ?_⟩ <;>
    simp_all [classifyDevice, tabletPred, mobilePred]

/-- C5 witness: android together with mobile (no bot or tablet token)
classifies as mobile. -/
theorem c5_witness : classifyDevice "android mobile" = Device.mobile :=
  c5_device_amended.2.2.2 "android mobile" (by decide) (by decide) (by decide)
    (by decide) (by decide) (by decide) (by decide)

/-! ## Claim C10: search-engine sub-tallies sum to the search count -/

theorem searchPred_of_classify {r : String} (h : classifySource r = Source.search) :
    searchPred r = true := by
  unfold classifySource at h
  split_ifs at h
  all_goals simp_all

theorem engine_isSome_of_searchPred {r : String} (h : searchPred r = true) :
    (classifyEngine r).isSome = true := by
  unfold searchPred at h
  unfold classifyEngine
  split_ifs <;> simp_all

theorem bumpSource_engine_inv (s : SourceCounts) (r : String)
    (h : sumEngines s.searchEngines = s.search) :
    sumEngines (bumpSource s r).searchEngines = (bumpSource s r).search := by
  unfold bumpSource
  rcases hc : classifySource r with _ | _ | _ | _
  · simpa [sumEngines] using h
  · have hs := searchPred_of_classify hc
    have he := engine_isSome_of_searchPred hs
    rcases heng : classifyEngine r with _ | e
    · rw [heng] at he; simp at he
    · cases e <;> simp_all [sumEngines] <;> omega
  · simpa [sumEngines] using h
  · simpa [sumEngines] using h

theorem sourcesOf_engine_inv : ∀ (logs : List LogRecord) (acc : SourceCounts),
    sumEngines acc.searchEngines = acc.search →
    sumEngines (logs.foldl (fun a l => bumpSource a l.referer) acc).searchEngines
      = (logs.foldl (fun a l => bumpSource a l.referer) acc).search := by
  intro logs
  induction logs with
  | nil => exact fun acc h => h
  | cons l t ih => exact fun acc h => ih _ (bumpSource_engine_inv acc l.referer h)

/-- C10: every record classified as search bumps exactly one per-engine
sub-tally, so over any record list — in both the `/api/metrics` tallies
and the `/api/traffic` tallies — the search-engine sub-counts sum to
the search source count. -/
theorem c10_engines_sum : ∀ logs : List LogRecord,
    sumEngines (sourcesOf logs).searchEngines = (sourcesOf logs).search ∧
    sumEngines (trafficSourcesOf logs).searchEngines = (trafficSourcesOf logs).search :=
  fun logs => ⟨sourcesOf_engine_inv logs {} rfl,
    sourcesOf_engine_inv ((sortedLogsOf logs).map Prod.fst) {} rfl⟩

/-! ## Claim C9: missing files and the no-data outcome -/

theorem readAllLogs_skip (fs : String → Option String) (resolve : String → Option IpLoc)
    (now : String) (p : String) (rest : List String) (h : fs p = none) :
    readAllLogs fs resolve now (p :: rest) = readAllLogs fs resolve now rest := by
  simp [readAllLogs, h]

theorem readAllLogs_all_missing (fs : String → Option String)
    (resolve : String → Option IpLoc) (now : String) :
    ∀ paths : List String, (∀ p ∈ paths, fs p = none) →
    readAllLogs fs resolve now paths = [] := by
  intro paths
  induction paths with
  | nil => intro; rfl
  | cons p rest ih =>
    intro h
    rw [readAllLogs_skip fs resolve now p rest (h p (by simp))]
    exact ih fun q hq => h q (by simp [hq])

theorem readAllLogs_all_unparseable (fs : String → Option String)
    (resolve : String → Option IpLoc) (now : String) :
    ∀ paths : List String,
    (∀ p content, fs p = some content →
      ∀ l ∈ jsSplit '\n' content.toList, parseNginxLog resolve now (String.mk l) = none) →
    readAllLogs fs resolve now paths = [] := by
  intro paths h
  have step : ∀ (acc : List LogRecord) (p : String),
      (match fs p with
       | none => acc
       | some content =>
         acc ++ ((jsSplit '\n' content.toList).filter (fun l => !l.isEmpty)).filterMap
           (fun l => parseNginxLog resolve now (String.mk l))) = acc := by
    intro acc p
    rcases hf : fs p with _ | content
    · rfl
    · have hf0 : List.filterMap (fun l => parseNginxLog resolve now (String.mk l))
          ((jsSplit '\n' content.toList).filter (fun l => !l.isEmpty)) = [] :=
        List.filterMap_eq_nil_iff.mpr fun l hl =>
          h p content hf l (List.mem_of_mem_filter hl)
      show acc ++ _ = acc
      rw [hf0, List.append_nil]
  unfold readAllLogs
  induction paths with
  | nil => rfl
  | cons p rest ih => rw [List.foldl_cons, step [] p]; exact ih

/-- C9: if every configured path is missing, or every line of every
found file is unparseable, ingestion yields no records and the endpoint
returns the explicit no-data outcome (distinct from both the populated
and the failure outcome); a single missing path contributes zero
records without failing the read. -/
theorem c9_no_data :
    (∀ fs resolve now paths, (∀ p ∈ paths, fs p = none) →
      readAllLogs fs resolve now paths = [] ∧
      apiOutcome fs resolve now paths = ApiOutcome.noData) ∧
    (∀ fs resolve now p rest, fs p = none →
      readAllLogs fs resolve now (p :: rest) = readAllLogs fs resolve now rest) ∧
    (∀ fs resolve now paths,
      (∀ p content, fs p = some content →
        ∀ l ∈ jsSplit '\n' content.toList, parseNginxLog resolve now (String.mk l) = none) →
      apiOutcome fs resolve now paths = ApiOutcome.noData) ∧
    ApiOutcome.noData ≠ ApiOutcome.failure ∧ ApiOutcome.noData ≠ ApiOutcome.ok := by
  refine ⟨fun fs resolve now paths h => ?_, readAllLogs_skip,
    fun fs resolve now paths h => ?_, by decide, by decide⟩
  · have e := readAllLogs_all_missing fs resolve now paths h
    exact ⟨e, by simp [apiOutcome, e]⟩
  · have e := readAllLogs_all_unparseable fs resolve now paths h
    simp [apiOutcome, e]

/-- C9 witness: with both default log paths missing, ingestion returns
no records and the endpoint reports no-data. -/
theorem c9_witness :
    readAllLogs (fun _ => none) (fun _ => none) "now" NGINX_LOG_PATHS = [] ∧
    apiOutcome (fun _ => none) (fun _ => none) "now" NGINX_LOG_PATHS = ApiOutcome.noData :=
  c9_no_data.1 (fun _ => none) (fun _ => none) "now" NGINX_LOG_PATHS (fun _ _ => rfl)

/-! ## Claim C3: resolver cache behaviour -/

theorem mapGet_mapSet_self (c : IpCache) (k : String) (e : CacheEntry) :
    mapGet (mapSet c k e) k = some e := by
  induction c with
  | nil => simp [mapSet, mapGet]
  | cons he t ih =>
    obtain ⟨k', e'⟩ := he
    by_cases hk : k' = k <;> simp [mapSet, mapGet, hk, ih]

/-- C3 counterexample: for an origin the database does not contain, the
resolver returns the absent outcome WITHOUT storing it in the cache, so
a second lookup of the same origin within the TTL window probes the
database again — refuting "stores every resolution result into the
cache … including the absent/unknown outcome … database probed at most
once". -/
theorem c3_counterexample :
    queryIPLocation dbMiss 0 [] "10.0.0.1" = ⟨none, [], true⟩ ∧
    queryIPLocation dbMiss 1000 [] "10.0.0.1" = ⟨none, [], true⟩ ∧
    (1000 - 0 < CACHE_DURATION) :=
  ⟨rfl, rfl, by decide⟩

/-- C3 (corrected): only SUCCESSFUL resolutions are cached.  For an
origin the database contains: a cache-miss lookup probes the database
and stores the extracted location with the current instant; a second
lookup within the 24-hour TTL returns the identical location without
probing; a lookup at or past the TTL probes the database again.  (A
database miss returns the absent outcome uncached, as the
counterexample shows.) -/
theorem c3_cache_amended (db : String → Option RawRecord) (c : IpCache)
    (t t2 : Nat) (ip : String) (r : RawRecord)
    (hip : ip ≠ "") (hdb : db ip = some r) (hmiss : mapGet c ip = none) :
    queryIPLocation db t c ip
      = ⟨some (extractLocation r), mapSet c ip ⟨t, extractLocation r⟩, true⟩ ∧
    (t2 - t < CACHE_DURATION →
      queryIPLocation db t2 (mapSet c ip ⟨t, extractLocation r⟩) ip
        = ⟨some (extractLocation r), mapSet c ip ⟨t, extractLocation r⟩, false⟩) ∧
    (CACHE_DURATION ≤ t2 - t →
      (queryIPLocation db t2 (mapSet c ip ⟨t, extractLocation r⟩) ip).probed = true) := by
  refine ⟨?_, fun hfresh => ?_, fun hstale => ?_⟩
  · simp [queryIPLocation, hip, hmiss, hdb]
  · simp [queryIPLocation, hip, mapGet_mapSet_self, hfresh]
  · have hns : ¬ (t2 - t < CACHE_DURATION) := not_lt.mpr hstale
    simp [queryIPLocation, hip, mapGet_mapSet_self, hns, hdb]

/-- C3 witness: the found-origin cache behaviour at a concrete database
and concrete instants 0 and 1000. -/
theorem c3_witness :
    queryIPLocation dbOne 0 [] "1.2.3.4"
      = ⟨some (extractLocation recOne),
         mapSet [] "1.2.3.4" ⟨0, extractLocation recOne⟩, true⟩ ∧
    (1000 - 0 < CACHE_DURATION →
      queryIPLocation dbOne 1000 (mapSet [] "1.2.3.4" ⟨0, extractLocation recOne⟩) "1.2.3.4"
        = ⟨some (extractLocation recOne),
           mapSet [] "1.2.3.4" ⟨0, extractLocation recOne⟩, false⟩) ∧
    (CACHE_DURATION ≤ 1000 - 0 →
      (queryIPLocation dbOne 1000
        (mapSet [] "1.2.3.4" ⟨0, extractLocation recOne⟩) "1.2.3.4").probed = true) :=
  c3_cache_amended dbOne [] 0 1000 "1.2.3.4" recOne (by decide) rfl rfl

/-! ## Claim C7: aggregation totals are conserved -/

theorem sumSources_bump (s : SourceCounts) (r : String) :
    sumSources (bumpSource s r) = sumSources s + 1 := by
  unfold bumpSource
  rcases hc : classifySource r with _ | _ | _ | _
  · simp [sumSources]; omega
  · rcases heng : classifyEngine r with _ | e
    · simp [sumSources]; omega
    · cases e
      all_goals simp [sumSources]
      all_goals omega
  · simp [sumSources]; omega
  · simp [sumSources]; omega

theorem sumDevices_bump (d : DeviceCounts) (ua : String) :
    sumDevices (bumpDevice d ua) = sumDevices d + 1 := by
  unfold bumpDevice
  rcases classifyDevice ua
  all_goals simp [sumDevices]
  all_goals omega

theorem sumSources_fold : ∀ (logs : List LogRecord) (acc : SourceCounts),
    sumSources (logs.foldl (fun a l => bumpSource a l.referer) acc)
      = sumSources acc + logs.length := by
  intro logs
  induction logs with
  | nil => intro acc; simp
  | cons l t ih =>
    intro acc
    rw [List.foldl_cons, ih, sumSources_bump]
    simp; omega

theorem sumDevices_fold : ∀ (logs : List LogRecord) (acc : DeviceCounts),
    sumDevices (logs.foldl (fun a l => bumpDevice a l.userAgent) acc)
      = sumDevices acc + logs.length := by
  intro logs
  induction logs with
  | nil => intro acc; simp
  | cons l t ih =>
    intro acc
    rw [List.foldl_cons, ih, sumDevices_bump]
    simp; omega

theorem sumCounts_bumpKey (k : String) (l : List (String × Nat)) :
    sumCounts (bumpKey k l) = sumCounts l + 1 := by
  induction l with
  | nil => rfl
  | cons e t ih =>
    obtain ⟨k', n⟩ := e
    by_cases hk : k' = k
    · simp [bumpKey, hk, sumCounts]; omega
    · simp only [bumpKey, if_neg hk]
      simp [sumCounts] at ih ⊢
      omega

theorem sumCounts_fold (tzMin : Int) :
    ∀ (xs : List (LogRecord × Int)) (acc : List (String × Nat)),
    sumCounts (xs.foldl (fun a le => bumpKey (hourKeyString tzMin le.2) a) acc)
      = sumCounts acc + xs.length := by
  intro xs
  induction xs with
  | nil => intro acc; simp
  | cons x t ih =>
    intro acc
    rw [List.foldl_cons, ih, sumCounts_bumpKey]
    simp; omega

theorem length_sortedLogsOf (logs : List LogRecord)
    (h : ∀ l ∈ logs, (jsDateParse l.timestamp.toList).isSome = true) :
    (sortedLogsOf logs).length = logs.length := by
  unfold sortedLogsOf
  rw [(List.perm_insertionSort _ _).length_eq]
  induction logs with
  | nil => rfl
  | cons l t ih =>
    obtain ⟨e, he⟩ := Option.isSome_iff_exists.mp (h l (by simp))
    simp only [List.filterMap_cons, he, Option.map_some', List.length_cons]
    rw [ih fun q hq => h q (by simp [hq])]

/-- C7: over any list of enriched records (every record's normalized
timestamp is a parseable instant, which the parser guarantees), the
per-source counts, the per-device counts, and the hourly bucket counts
each sum to the total record count — in the `/api/metrics` tallies and
in the `/api/traffic` tallies alike. -/
theorem c7_conservation (tzMin : Int) (logs : List LogRecord)
    (h : ∀ l ∈ logs, (jsDateParse l.timestamp.toList).isSome = true) :
    sumSources (sourcesOf logs) = logs.length ∧
    sumDevices (devicesOf logs) = logs.length ∧
    sumSources (trafficSourcesOf logs) = logs.length ∧
    sumDevices (trafficDevicesOf logs) = logs.length ∧
    sumCounts (hourlyOf tzMin logs) = logs.length := by
  have hlen : (sortedLogsOf logs).length = logs.length := length_sortedLogsOf logs h
  have hmap : ((sortedLogsOf logs).map Prod.fst).length = logs.length := by
    rw [List.length_map, hlen]
  refine ⟨?_, ?_, ?_, ?_, ?_⟩
  · rw [sourcesOf, sumSources_fold]; simp [sumSources]
  · rw [devicesOf, sumDevices_fold]; simp [sumDevices]
  · rw [trafficSourcesOf, sourcesOf, sumSources_fold, hmap]; simp [sumSources]
  · rw [trafficDevicesOf, devicesOf, sumDevices_fold, hmap]; simp [sumDevices]
  · rw [hourlyOf, sumCounts_fold, hlen]; simp [sumCounts]

/-- C7 witness: the conservation sums at a concrete one-record list. -/
theorem c7_witness :
    sumSources (sourcesOf [recNoLocation]) = 1 ∧
    sumDevices (devicesOf [recNoLocation]) = 1 ∧
    sumSources (trafficSourcesOf [recNoLocation]) = 1 ∧
    sumDevices (trafficDevicesOf [recNoLocation]) = 1 ∧
    sumCounts (hourlyOf 480 [recNoLocation]) = 1 :=
  c7_conservation 480 [recNoLocation] (by decide)

/-! ## Claim C8: geographic distribution exclusion and ordering -/

/-- C8 counterexample: a record whose location is present but has no
region (an "unknown region" outcome) is NOT excluded — it appears in
the distribution under the placeholder region name, refuting "records
whose location is absent, unknown, or an error outcome are excluded
entirely". -/
theorem c8_counterexample :
    recUnknownRegion.ipLocation = some ⟨none, none, none, none, none⟩ ∧
    geoProvinces [recUnknownRegion] = [⟨"未知地区", 1, [⟨"未知城市", 1⟩]⟩] :=
  ⟨rfl, by decide⟩

/-- C8 (corrected): records with an ABSENT location, and records whose
(defaulted) region name is the literal `Error` or `Unknown`, are
excluded entirely from the geographic distribution; a present location
with a missing region is instead counted under the placeholder region
`未知地区`.  Regions are listed in descending order of count and the
cities inside each region are in descending order of count. -/
theorem c8_geo_amended :
    (∀ acc l, l.ipLocation = none → geoFold acc l = acc) ∧
    (∀ acc l loc, l.ipLocation = some loc →
      (jsOrDefault loc.region "未知地区" = "Error" ∨
       jsOrDefault loc.region "未知地区" = "Unknown") →
      geoFold acc l = acc) ∧
    (∀ logs, List.Sorted provGE (geoProvinces logs)) ∧
    (∀ logs p, p ∈ geoProvinces logs → List.Sorted cityGE p.cities) := by
  refine ⟨fun acc l h => ?_, fun acc l loc h hreg => ?_, fun logs => ?_,
    fun logs p hp => ?_⟩
  · unfold geoFold; rw [h]
  · unfold geoFold
    rw [h]
    rcases hreg with hr | hr
    all_goals simp [hr]
  · unfold geoProvinces
    exact List.sorted_insertionSort provGE _
  · unfold geoProvinces at hp
    rw [(List.perm_insertionSort provGE _).mem_iff] at hp
    obtain ⟨pa, _, hpa⟩ := List.mem_map.mp hp
    rw [← hpa]
    exact List.sorted_insertionSort cityGE _

/-- C8 witness: a record with no resolved location contributes nothing
to the province map. -/
theorem c8_witness : geoFold [] recNoLocation = [] :=
  c8_geo_amended.1 [] recNoLocation rfl

/-! ## Claim C1: log-line parser — scanner-stage lemmas -/

theorem expectChar_build (c : Char) (r : List Char) : expectChar c (c :: r) = some r := by
  simp [expectChar]

theorem takeDelim0_build (stop : Char) (t r : List Char) (h2 : stop ∉ t) :
    takeDelim0 stop (t ++ stop :: r) = some (t, r) := by
  have hp : ∀ c ∈ t, (fun c => c != stop) c = true := by
    intro c hc
    simp only [bne_iff_ne, ne_eq, decide_eq_true_eq]
    exact fun he => h2 (he ▸ hc)
  have hsp : (stop :: r).takeWhile (fun c => c != stop) = [] := by
    rw [List.takeWhile_cons, if_neg (by simp)]
  have hdp : (stop :: r).dropWhile (fun c => c != stop) = stop :: r := by
    rw [List.dropWhile_cons, if_neg (by simp)]
  unfold takeDelim0
  rw [takeWhile_append_of_all _ hp, dropWhile_append_of_all _ hp, hsp, hdp]
  rw [if_pos (by simp)]
  simp

theorem matchTail_build (ref ua rest2 : List Char) (h1 : '"' ∉ ref) (h2 : '"' ∉ ua) :
    matchTail (' ' :: '"' :: (ref ++ ('"' :: ' ' :: '"' :: (ua ++ ('"' :: rest2)))))
      = some (ref, ua) := by
  simp [matchTail, expectChar_build, takeDelim0_build, h1, h2]

theorem jsSplit_cons_ne {sep c : Char} (r : List Char) (h : c ≠ sep) :
    jsSplit sep (c :: r) = (c :: (jsSplit sep r).headD []) :: (jsSplit sep r).tail := by
  rcases hr : jsSplit sep r with _ | ⟨h0, t⟩
  · exact absurd hr (jsSplit_ne_nil sep r)
  · simp [jsSplit, h, hr]

theorem jsSplit_append_left {sep : Char} {xs : List Char} (ys : List Char)
    (h : sep ∉ xs) :
    jsSplit sep (xs ++ ys)
      = (xs ++ (jsSplit sep ys).headD []) :: (jsSplit sep ys).tail := by
  induction xs with
  | nil =>
    rcases hy : jsSplit sep ys with _ | ⟨h0, t⟩
    · exact absurd hy (jsSplit_ne_nil sep ys)
    · simp [hy]
  | cons c t ih =>
    simp only [List.mem_cons, not_or] at h
    rw [List.cons_append, jsSplit_cons_ne (t ++ ys) (fun hc => h.1 hc.symm),
      ih h.2]
    simp

theorem monthsLookup_chars {m v : List Char} (h : monthsLookup m = some v) :
    ' ' ∉ m ∧ '/' ∉ m ∧ ':' ∉ m ∧ m ≠ [] ∧
    ∃ a b, v = [a, b] ∧ a.isDigit = true ∧ b.isDigit = true ∧
      1 ≤ natOfDigits v ∧ natOfDigits v ≤ 12 := by
  unfold monthsLookup at h
  rcases hf : monthsTable.find? (fun p => p.1 = m) with _ | p
  · rw [hf] at h; cases h
  · rw [hf] at h
    simp only [Option.map_some', Option.some.injEq] at h
    have hpm := List.find?_some hf
    have hmem := List.mem_of_find?_eq_some hf
    simp only [decide_eq_true_eq] at hpm
    simp only [monthsTable, List.mem_cons] at hmem
    rcases hmem with hp | hp | hp | hp | hp | hp | hp | hp | hp | hp | hp | hp | hp
    all_goals first
      | (subst hp; rw [← hpm, ← h]
         exact ⟨by decide, by decide, by decide, by decide,
           _, _, rfl, by decide, by decide, by decide, by decide⟩)
      | (exact absurd hp (by simp))

theorem digit_ne_seps : ∀ c : Char, c.isDigit = true → c ≠ ' ' ∧ c ≠ '/' ∧ c ≠ ':' := by
  intro c hc
  refine ⟨fun he => ?_, fun he => ?_, fun he => ?_⟩ <;>
    (subst he; exact absurd hc (by decide))

theorem vendor_split_space (d1 d2 y1 y2 y3 y4 h1 h2 i1 i2 s1 s2 sg z1 z2 z3 z4 : Char)
    (mon : List Char)
    (hd1 : d1.isDigit = true) (hd2 : d2.isDigit = true)
    (hy1 : y1.isDigit = true) (hy2 : y2.isDigit = true)
    (hy3 : y3.isDigit = true) (hy4 : y4.isDigit = true)
    (hh1 : h1.isDigit = true) (hh2 : h2.isDigit = true)
    (hi1 : i1.isDigit = true) (hi2 : i2.isDigit = true)
    (hs1 : s1.isDigit = true) (hs2 : s2.isDigit = true)
    (hz1 : z1.isDigit = true) (hz2 : z2.isDigit = true)
    (hz3 : z3.isDigit = true) (hz4 : z4.isDigit = true)
    (hsg : sg = '+' ∨ sg = '-')
    (hmsp : ' ' ∉ mon) :
    jsSplit ' ' (vendorTs [d1, d2] mon [y1, y2, y3, y4] [h1, h2] [i1, i2] [s1, s2]
        (sg :: [z1, z2, z3, z4]))
      = [[d1, d2] ++ ('/' :: (mon ++ ('/' :: ([y1, y2, y3, y4] ++ (':' :: ([h1, h2] ++
          (':' :: ([i1, i2] ++ (':' :: [s1, s2]))))))))), sg :: [z1, z2, z3, z4]] := by
  have htz : ' ' ∉ (sg :: [z1, z2, z3, z4]) := by
    intro hm
    rcases hsg with rfl | rfl <;>
      (simp only [List.mem_cons, List.not_mem_nil, or_false] at hm
       rcases hm with h | h | h | h | h <;>
        first
          | (exact absurd h.symm (by decide))
          | (exact (digit_ne_seps _ (by assumption)).1 h.symm))
  unfold vendorTs
  rw [jsSplit_append_left _ (by
      intro hm
      simp only [List.mem_cons, List.not_mem_nil, or_false] at hm
      rcases hm with h | h <;> exact (digit_ne_seps _ (by assumption)).1 h.symm)]
  rw [jsSplit_cons_ne _ (by decide)]
  rw [jsSplit_append_left _ hmsp]
  rw [jsSplit_cons_ne _ (by decide)]
  rw [jsSplit_append_left _ (by
      intro hm
      simp only [List.mem_cons, List.not_mem_nil, or_false] at hm
      rcases hm with h | h | h | h <;> exact (digit_ne_seps _ (by assumption)).1 h.symm)]
  rw [jsSplit_cons_ne _ (by decide)]
  rw [jsSplit_append_left _ (by
      intro hm
      simp only [List.mem_cons, List.not_mem_nil, or_false] at hm
      rcases hm with h | h <;> exact (digit_ne_seps _ (by assumption)).1 h.symm)]
  rw [jsSplit_cons_ne _ (by decide)]
  rw [jsSplit_append_left _ (by
      intro hm
      simp only [List.mem_cons, List.not_mem_nil, or_false] at hm
      rcases hm with h | h <;> exact (digit_ne_seps _ (by assumption)).1 h.symm)]
  rw [jsSplit_cons_ne _ (by decide)]
  rw [jsSplit_append _ (by
      intro hm
      simp only [List.mem_cons, List.not_mem_nil, or_false] at hm
      rcases hm with h | h <;> exact (digit_ne_seps _ (by assumption)).1 h.symm)]
  rw [jsSplit_of_not_mem htz]
  simp

theorem vendor_split_slash (d1 d2 y1 y2 y3 y4 h1 h2 i1 i2 s1 s2 : Char) (mon : List Char)
    (hd1 : d1.isDigit = true) (hd2 : d2.isDigit = true)
    (hy1 : y1.isDigit = true) (hy2 : y2.isDigit = true)
    (hy3 : y3.isDigit = true) (hy4 : y4.isDigit = true)
    (hh1 : h1.isDigit = true) (hh2 : h2.isDigit = true)
    (hi1 : i1.isDigit = true) (hi2 : i2.isDigit = true)
    (hs1 : s1.isDigit = true) (hs2 : s2.isDigit = true)
    (hmsl : '/' ∉ mon) :
    jsSplit '/' ([d1, d2] ++ ('/' :: (mon ++ ('/' :: ([y1, y2, y3, y4] ++
        (':' :: ([h1, h2] ++ (':' :: ([i1, i2] ++ (':' :: [s1, s2]))))))))))
      = [[d1, d2], mon, [y1, y2, y3, y4] ++ (':' :: ([h1, h2] ++
          (':' :: ([i1, i2] ++ (':' :: [s1, s2])))))] := by
  rw [jsSplit_append _ (by
      intro hm
      simp only [List.mem_cons, List.not_mem_nil, or_false] at hm
      rcases hm with h | h <;> exact (digit_ne_seps _ (by assumption)).2.1 h.symm)]
  rw [jsSplit_append _ hmsl]
  rw [jsSplit_of_not_mem (by
      intro hm
      simp only [List.mem_append, List.mem_cons, List.not_mem_nil, or_false] at hm
      rcases hm with (h | h | h | h) | h | (h | h) | h | (h | h) | h | h | h <;>
        first
          | (exact (digit_ne_seps _ (by assumption)).2.1 h.symm)
          | (exact absurd h (by decide)))]

theorem vendor_split_colon1 (y1 y2 y3 y4 h1 h2 i1 i2 s1 s2 : Char)
    (hy1 : y1.isDigit = true) (hy2 : y2.isDigit = true)
    (hy3 : y3.isDigit = true) (hy4 : y4.isDigit = true)
    (hh1 : h1.isDigit = true) (hh2 : h2.isDigit = true)
    (hi1 : i1.isDigit = true) (hi2 : i2.isDigit = true)
    (hs1 : s1.isDigit = true) (hs2 : s2.isDigit = true) :
    jsSplit ':' ([y1, y2, y3, y4] ++ (':' :: ([h1, h2] ++
        (':' :: ([i1, i2] ++ (':' :: [s1, s2]))))))
      = [[y1, y2, y3, y4], [h1, h2], [i1, i2], [s1, s2]] := by
  rw [jsSplit_append _ (by
      intro hm
      simp only [List.mem_cons, List.not_mem_nil, or_false] at hm
      rcases hm with h | h | h | h <;> exact (digit_ne_seps _ (by assumption)).2.2 h.symm)]
  rw [jsSplit_append _ (by
      intro hm
      simp only [List.mem_cons, List.not_mem_nil, or_false] at hm
      rcases hm with h | h <;> exact (digit_ne_seps _ (by assumption)).2.2 h.symm)]
  rw [jsSplit_append _ (by
      intro hm
      simp only [List.mem_cons, List.not_mem_nil, or_false] at hm
      rcases hm with h | h <;> exact (digit_ne_seps _ (by assumption)).2.2 h.symm)]
  rw [jsSplit_of_not_mem (by
      intro hm
      simp only [List.mem_cons, List.not_mem_nil, or_false] at hm
      rcases hm with h | h <;> exact (digit_ne_seps _ (by assumption)).2.2 h.symm)]

theorem vendor_split_colon2 (h1 h2 i1 i2 s1 s2 : Char)
    (hh1 : h1.isDigit = true) (hh2 : h2.isDigit = true)
    (hi1 : i1.isDigit = true) (hi2 : i2.isDigit = true)
    (hs1 : s1.isDigit = true) (hs2 : s2.isDigit = true) :
    jsSplit ':' ([h1, h2] ++ (':' :: ([i1, i2] ++ (':' :: [s1, s2]))))
      = [[h1, h2], [i1, i2], [s1, s2]] := by
  rw [jsSplit_append _ (by
      intro hm
      simp only [List.mem_cons, List.not_mem_nil, or_false] at hm
      rcases hm with h | h <;> exact (digit_ne_seps _ (by assumption)).2.2 h.symm)]
  rw [jsSplit_append _ (by
      intro hm
      simp only [List.mem_cons, List.not_mem_nil, or_false] at hm
      rcases hm with h | h <;> exact (digit_ne_seps _ (by assumption)).2.2 h.symm)]
  rw [jsSplit_of_not_mem (by
      intro hm
      simp only [List.mem_cons, List.not_mem_nil, or_false] at hm
      rcases hm with h | h <;> exact (digit_ne_seps _ (by assumption)).2.2 h.symm)]

theorem vendor_replace_tz (sg z1 z2 z3 z4 : Char)
    (hz1 : z1.isDigit = true) (hz2 : z2.isDigit = true)
    (hz3 : z3.isDigit = true) (hz4 : z4.isDigit = true)
    (hsg : sg = '+' ∨ sg = '-') :
    jsReplaceFirst ':' (sg :: [z1, z2, z3, z4]) = sg :: [z1, z2, z3, z4] := by
  apply jsReplaceFirst_of_not_mem
  intro hm
  rcases hsg with rfl | rfl <;>
    (simp only [List.mem_cons, List.not_mem_nil, or_false] at hm
     rcases hm with h | h | h | h | h <;>
      first
        | (exact absurd h.symm (by decide))
        | (exact (digit_ne_seps _ (by assumption)).2.2 h.symm))

set_option maxHeartbeats 2000000 in
theorem parseTimestampCore_canonical
    (d1 d2 y1 y2 y3 y4 h1 h2 i1 i2 s1 s2 sg z1 z2 z3 z4 a b : Char) (mon : List Char)
    (hd1 : d1.isDigit = true) (hd2 : d2.isDigit = true)
    (hy1 : y1.isDigit = true) (hy2 : y2.isDigit = true)
    (hy3 : y3.isDigit = true) (hy4 : y4.isDigit = true)
    (hh1 : h1.isDigit = true) (hh2 : h2.isDigit = true)
    (hi1 : i1.isDigit = true) (hi2 : i2.isDigit = true)
    (hs1 : s1.isDigit = true) (hs2 : s2.isDigit = true)
    (hz1 : z1.isDigit = true) (hz2 : z2.isDigit = true)
    (hz3 : z3.isDigit = true) (hz4 : z4.isDigit = true)
    (hsg : sg = '+' ∨ sg = '-')
    (hmon : monthsLookup mon = some [a, b])
    (hdlo : 1 ≤ natOfDigits [d1, d2])
    (hdhi : natOfDigits [d1, d2]
      ≤ daysInMonth (natOfDigits [y1, y2, y3, y4]) (natOfDigits [a, b]))
    (hhh : natOfDigits [h1, h2] ≤ 23)
    (hmi : natOfDigits [i1, i2] ≤ 59)
    (hss : natOfDigits [s1, s2] ≤ 59)
    (hzh : natOfDigits [z1, z2] ≤ 23)
    (hzm : natOfDigits [z3, z4] ≤ 59) :
    parseTimestampCore (String.mk (vendorTs [d1, d2] mon [y1, y2, y3, y4] [h1, h2]
        [i1, i2] [s1, s2] (sg :: [z1, z2, z3, z4])))
      = some (toISOStringOf (epochOfCivil (natOfDigits [y1, y2, y3, y4])
          (natOfDigits [a, b]) (natOfDigits [d1, d2]) (natOfDigits [h1, h2])
          (natOfDigits [i1, i2]) (natOfDigits [s1, s2]) (natOfDigits ['0', '0', '0'])
          ((if sg = '-' then -1 else 1) *
            (natOfDigits [z1, z2] * 60 + natOfDigits [z3, z4] : Nat)))) := by
  obtain ⟨hmsp, hmsl, hmcl, hmne, a', b', hv, ha', hb', hmlo, hmhi⟩ := monthsLookup_chars hmon
  simp only [List.cons.injEq, and_true] at hv
  obtain ⟨rfl, rfl⟩ := hv
  unfold parseTimestampCore
  rw [show (String.mk (vendorTs [d1, d2] mon [y1, y2, y3, y4] [h1, h2] [i1, i2] [s1, s2]
      (sg :: [z1, z2, z3, z4]))).toList
      = vendorTs [d1, d2] mon [y1, y2, y3, y4] [h1, h2] [i1, i2] [s1, s2]
        (sg :: [z1, z2, z3, z4]) from rfl]
  rw [vendor_split_space d1 d2 y1 y2 y3 y4 h1 h2 i1 i2 s1 s2 sg z1 z2 z3 z4 mon
    hd1 hd2 hy1 hy2 hy3 hy4 hh1 hh2 hi1 hi2 hs1 hs2 hz1 hz2 hz3 hz4 hsg hmsp]
  simp only [vendor_split_slash d1 d2 y1 y2 y3 y4 h1 h2 i1 i2 s1 s2 mon
      hd1 hd2 hy1 hy2 hy3 hy4 hh1 hh2 hi1 hi2 hs1 hs2 hmsl,
    vendor_split_colon1 y1 y2 y3 y4 h1 h2 i1 i2 s1 s2
      hy1 hy2 hy3 hy4 hh1 hh2 hi1 hi2 hs1 hs2,
    joinColon,
    vendor_split_colon2 h1 h2 i1 i2 s1 s2 hh1 hh2 hi1 hi2 hs1 hs2,
    hmon,
    vendor_replace_tz sg z1 z2 z3 z4 hz1 hz2 hz3 hz4 hsg, padStart2]
  simp only [List.length_cons, List.length_nil, Nat.reduceAdd, ge_iff_le, Nat.reduceLeDiff,
    if_true, if_pos]
  rw [if_neg (by simp [hmne]), if_neg (by simp), if_neg (by simp)]
  rw [show [y1, y2, y3, y4] ++ ['-', a, b] ++ ['-', d1, d2] ++ ['T', h1, h2] ++
      [':', i1, i2] ++ [':', s1, s2] ++ ['.', '0', '0', '0', sg, z1, z2, z3, z4]
      = y1 :: y2 :: y3 :: y4 :: '-' :: a :: b :: '-' :: d1 :: d2 :: 'T' :: h1 :: h2 ::
        ':' :: i1 :: i2 :: ':' :: s1 :: s2 :: '.' :: '0' :: '0' :: '0' ::
        sg :: z1 :: z2 :: z3 :: z4 :: [] from by simp]
  rcases hsg with rfl | rfl <;>
    simp [jsDateParse, parseTz, hd1, hd2, hy1, hy2, hy3, hy4, hh1, hh2, hi1, hi2,
      hs1, hs2, hz1, hz2, hz3, hz4, ha', hb', hmlo, hmhi, hdlo, hdhi, hhh, hmi, hss,
      hzh, hzm]

set_option maxHeartbeats 1000000 in
theorem parseTimestampCore_bad_month
    (d1 d2 y1 y2 y3 y4 h1 h2 i1 i2 s1 s2 sg z1 z2 z3 z4 : Char) (mon : List Char)
    (hd1 : d1.isDigit = true) (hd2 : d2.isDigit = true)
    (hy1 : y1.isDigit = true) (hy2 : y2.isDigit = true)
    (hy3 : y3.isDigit = true) (hy4 : y4.isDigit = true)
    (hh1 : h1.isDigit = true) (hh2 : h2.isDigit = true)
    (hi1 : i1.isDigit = true) (hi2 : i2.isDigit = true)
    (hs1 : s1.isDigit = true) (hs2 : s2.isDigit = true)
    (hz1 : z1.isDigit = true) (hz2 : z2.isDigit = true)
    (hz3 : z3.isDigit = true) (hz4 : z4.isDigit = true)
    (hsg : sg = '+' ∨ sg = '-')
    (hmsp : ' ' ∉ mon) (hmsl : '/' ∉ mon) (hmne : mon ≠ [])
    (hmon : monthsLookup mon = none) :
    parseTimestampCore (String.mk (vendorTs [d1, d2] mon [y1, y2, y3, y4] [h1, h2]
        [i1, i2] [s1, s2] (sg :: [z1, z2, z3, z4]))) = none := by
  unfold parseTimestampCore
  rw [show (String.mk (vendorTs [d1, d2] mon [y1, y2, y3, y4] [h1, h2] [i1, i2] [s1, s2]
      (sg :: [z1, z2, z3, z4]))).toList
      = vendorTs [d1, d2] mon [y1, y2, y3, y4] [h1, h2] [i1, i2] [s1, s2]
        (sg :: [z1, z2, z3, z4]) from rfl]
  rw [vendor_split_space d1 d2 y1 y2 y3 y4 h1 h2 i1 i2 s1 s2 sg z1 z2 z3 z4 mon
    hd1 hd2 hy1 hy2 hy3 hy4 hh1 hh2 hi1 hi2 hs1 hs2 hz1 hz2 hz3 hz4 hsg hmsp]
  simp only [vendor_split_slash d1 d2 y1 y2 y3 y4 h1 h2 i1 i2 s1 s2 mon
      hd1 hd2 hy1 hy2 hy3 hy4 hh1 hh2 hi1 hi2 hs1 hs2 hmsl,
    vendor_split_colon1 y1 y2 y3 y4 h1 h2 i1 i2 s1 s2
      hy1 hy2 hy3 hy4 hh1 hh2 hi1 hi2 hs1 hs2,
    joinColon,
    vendor_split_colon2 h1 h2 i1 i2 s1 s2 hh1 hh2 hi1 hi2 hs1 hs2,
    hmon]
  rw [if_neg (by simp [hmne]), if_neg (by simp), if_neg (by simp)]

set_option maxHeartbeats 2000000 in
theorem parseTimestampCore_bad_day
    (d1 d2 y1 y2 y3 y4 h1 h2 i1 i2 s1 s2 sg z1 z2 z3 z4 a b : Char) (mon : List Char)
    (hd1 : d1.isDigit = false)
    (hdn1 : d1 ≠ ' ') (hdn2 : d1 ≠ '/')
    (hd2 : d2.isDigit = true)
    (hy1 : y1.isDigit = true) (hy2 : y2.isDigit = true)
    (hy3 : y3.isDigit = true) (hy4 : y4.isDigit = true)
    (hh1 : h1.isDigit = true) (hh2 : h2.isDigit = true)
    (hi1 : i1.isDigit = true) (hi2 : i2.isDigit = true)
    (hs1 : s1.isDigit = true) (hs2 : s2.isDigit = true)
    (hz1 : z1.isDigit = true) (hz2 : z2.isDigit = true)
    (hz3 : z3.isDigit = true) (hz4 : z4.isDigit = true)
    (hsg : sg = '+' ∨ sg = '-')
    (hmon : monthsLookup mon = some [a, b]) :
    parseTimestampCore (String.mk (vendorTs [d1, d2] mon [y1, y2, y3, y4] [h1, h2]
        [i1, i2] [s1, s2] (sg :: [z1, z2, z3, z4]))) = none := by
  obtain ⟨hmsp, hmsl, hmcl, hmne, a', b', hv, ha', hb', hmlo, hmhi⟩ := monthsLookup_chars hmon
  simp only [List.cons.injEq, and_true] at hv
  obtain ⟨rfl, rfl⟩ := hv
  have hspace : jsSplit ' ' (vendorTs [d1, d2] mon [y1, y2, y3, y4] [h1, h2] [i1, i2] [s1, s2]
      (sg :: [z1, z2, z3, z4]))
      = [[d1, d2] ++ ('/' :: (mon ++ ('/' :: ([y1, y2, y3, y4] ++ (':' :: ([h1, h2] ++
          (':' :: ([i1, i2] ++ (':' :: [s1, s2]))))))))), sg :: [z1, z2, z3, z4]] := by
    have htz : ' ' ∉ (sg :: [z1, z2, z3, z4]) := by
      intro hm
      rcases hsg with rfl | rfl <;>
        (simp only [List.mem_cons, List.not_mem_nil, or_false] at hm
         rcases hm with h | h | h | h | h <;>
          first
            | (exact absurd h.symm (by decide))
            | (exact (digit_ne_seps _ (by assumption)).1 h.symm))
    unfold vendorTs
    rw [jsSplit_append_left _ (by
        intro hm
        simp only [List.mem_cons, List.not_mem_nil, or_false] at hm
        rcases hm with h | h
        · exact hdn1 h.symm
        · exact (digit_ne_seps _ hd2).1 h.symm)]
    rw [jsSplit_cons_ne _ (by decide)]
    rw [jsSplit_append_left _ hmsp]
    rw [jsSplit_cons_ne _ (by decide)]
    rw [jsSplit_append_left _ (by
        intro hm
        simp only [List.mem_cons, List.not_mem_nil, or_false] at hm
        rcases hm with h | h | h | h <;> exact (digit_ne_seps _ (by assumption)).1 h.symm)]
    rw [jsSplit_cons_ne _ (by decide)]
    rw [jsSplit_append_left _ (by
        intro hm
        simp only [List.mem_cons, List.not_mem_nil, or_false] at hm
        rcases hm with h | h <;> exact (digit_ne_seps _ (by assumption)).1 h.symm)]
    rw [jsSplit_cons_ne _ (by decide)]
    rw [jsSplit_append_left _ (by
        intro hm
        simp only [List.mem_cons, List.not_mem_nil, or_false] at hm
        rcases hm with h | h <;> exact (digit_ne_seps _ (by assumption)).1 h.symm)]
    rw [jsSplit_cons_ne _ (by decide)]
    rw [jsSplit_append _ (by
        intro hm
        simp only [List.mem_cons, List.not_mem_nil, or_false] at hm
        rcases hm with h | h <;> exact (digit_ne_seps _ (by assumption)).1 h.symm)]
    rw [jsSplit_of_not_mem htz]
    simp
  have hslash : jsSplit '/' ([d1, d2] ++ ('/' :: (mon ++ ('/' :: ([y1, y2, y3, y4] ++
      (':' :: ([h1, h2] ++ (':' :: ([i1, i2] ++ (':' :: [s1, s2]))))))))))
      = [[d1, d2], mon, [y1, y2, y3, y4] ++ (':' :: ([h1, h2] ++
          (':' :: ([i1, i2] ++ (':' :: [s1, s2])))))] := by
    rw [jsSplit_append _ (by
        intro hm
        simp only [List.mem_cons, List.not_mem_nil, or_false] at hm
        rcases hm with h | h
        · exact hdn2 h.symm
        · exact (digit_ne_seps _ hd2).2.1 h.symm)]
    rw [jsSplit_append _ hmsl]
    rw [jsSplit_of_not_mem (by
        intro hm
        simp only [List.mem_append, List.mem_cons, List.not_mem_nil, or_false] at hm
        rcases hm with (h | h | h | h) | h | (h | h) | h | (h | h) | h | h | h <;>
          first
            | (exact (digit_ne_seps _ (by assumption)).2.1 h.symm)
            | (exact absurd h (by decide)))]
  unfold parseTimestampCore
  rw [show (String.mk (vendorTs [d1, d2] mon [y1, y2, y3, y4] [h1, h2] [i1, i2] [s1, s2]
      (sg :: [z1, z2, z3, z4]))).toList
      = vendorTs [d1, d2] mon [y1, y2, y3, y4] [h1, h2] [i1, i2] [s1, s2]
        (sg :: [z1, z2, z3, z4]) from rfl]
  rw [hspace]
  simp only [hslash,
    vendor_split_colon1 y1 y2 y3 y4 h1 h2 i1 i2 s1 s2
      hy1 hy2 hy3 hy4 hh1 hh2 hi1 hi2 hs1 hs2,
    joinColon,
    vendor_split_colon2 h1 h2 i1 i2 s1 s2 hh1 hh2 hi1 hi2 hs1 hs2,
    hmon,
    vendor_replace_tz sg z1 z2 z3 z4 hz1 hz2 hz3 hz4 hsg, padStart2]
  simp only [List.length_cons, List.length_nil, Nat.reduceAdd, ge_iff_le, Nat.reduceLeDiff,
    if_true, if_pos]
  rw [if_neg (by simp [hmne]), if_neg (by simp), if_neg (by simp)]
  rw [show [y1, y2, y3, y4] ++ ['-', a, b] ++ ['-', d1, d2] ++ ['T', h1, h2] ++
      [':', i1, i2] ++ [':', s1, s2] ++ ['.', '0', '0', '0', sg, z1, z2, z3, z4]
      = y1 :: y2 :: y3 :: y4 :: '-' :: a :: b :: '-' :: d1 :: d2 :: 'T' :: h1 :: h2 ::
        ':' :: i1 :: i2 :: ':' :: s1 :: s2 :: '.' :: '0' :: '0' :: '0' ::
        sg :: z1 :: z2 :: z3 :: z4 :: [] from by simp]
  simp [jsDateParse, hd1]

theorem parseTimestamp_no_space (now ts : String) (h : ' ' ∉ ts.toList) :
    parseTimestamp now ts = now := by
  unfold parseTimestamp parseTimestampCore
  rw [jsSplit_of_not_mem h]
  rfl

/-- C2 counterexample: the timestamp `5/Jan/2024:10:00:00 +0000` is not
of the canonical `DD/Mon/YYYY:HH:MM:SS +ZZZZ` form (single-digit day),
yet the normalizer does NOT return the current wall-clock time — it
zero-pads the day and produces the real instant, refuting "for every
other input it returns the current wall-clock time". -/
theorem c2_counterexample :
    parseTimestamp "1999-01-01T00:00:00.000Z" "5/Jan/2024:10:00:00 +0000"
      = "2024-01-05T10:00:00.000Z" ∧
    ("2024-01-05T10:00:00.000Z" : String) ≠ "1999-01-01T00:00:00.000Z" :=
  ⟨by decide, by decide⟩

/-- C2 (corrected): the normalizer ignores the wall clock whenever the
core pipeline succeeds (determinism), and for every canonical
`DD/Mon/YYYY:HH:MM:SS ±ZZZZ` timestamp with a recognized month it
produces the ISO-8601 rendering of exactly the instant the components
denote; when the core pipeline rejects, the current wall-clock time is
returned instead — in particular for inputs with no space separator,
with an unrecognized month abbreviation, or with a non-numeric day.
(Near-canonical variants such as a single-digit day are however
normalized successfully rather than falling back, as the
counterexample shows.) -/
theorem c2_timestamp_amended :
    (∀ (now now' ts r : String), parseTimestampCore ts = some r →
      parseTimestamp now ts = r ∧ parseTimestamp now' ts = r) ∧
    (∀ (now ts : String), parseTimestampCore ts = none → parseTimestamp now ts = now) ∧
    (∀ (now : String) (d1 d2 y1 y2 y3 y4 h1 h2 i1 i2 s1 s2 sg z1 z2 z3 z4 a b : Char)
      (mon : List Char),
      d1.isDigit = true → d2.isDigit = true →
      y1.isDigit = true → y2.isDigit = true → y3.isDigit = true → y4.isDigit = true →
      h1.isDigit = true → h2.isDigit = true →
      i1.isDigit = true → i2.isDigit = true →
      s1.isDigit = true → s2.isDigit = true →
      z1.isDigit = true → z2.isDigit = true → z3.isDigit = true → z4.isDigit = true →
      (sg = '+' ∨ sg = '-') →
      monthsLookup mon = some [a, b] →
      1 ≤ natOfDigits [d1, d2] →
      natOfDigits [d1, d2]
        ≤ daysInMonth (natOfDigits [y1, y2, y3, y4]) (natOfDigits [a, b]) →
      natOfDigits [h1, h2] ≤ 23 →
      natOfDigits [i1, i2] ≤ 59 →
      natOfDigits [s1, s2] ≤ 59 →
      natOfDigits [z1, z2] ≤ 23 →
      natOfDigits [z3, z4] ≤ 59 →
      parseTimestamp now (String.mk (vendorTs [d1, d2] mon [y1, y2, y3, y4] [h1, h2]
          [i1, i2] [s1, s2] (sg :: [z1, z2, z3, z4])))
        = toISOStringOf (epochOfCivil (natOfDigits [y1, y2, y3, y4])
            (natOfDigits [a, b]) (natOfDigits [d1, d2]) (natOfDigits [h1, h2])
            (natOfDigits [i1, i2]) (natOfDigits [s1, s2]) (natOfDigits ['0', '0', '0'])
            ((if sg = '-' then -1 else 1) *
              (natOfDigits [z1, z2] * 60 + natOfDigits [z3, z4] : Nat)))) ∧
    (∀ (now ts : String), ' ' ∉ ts.toList → parseTimestamp now ts = now) ∧
    (∀ (now : String) (d1 d2 y1 y2 y3 y4 h1 h2 i1 i2 s1 s2 sg z1 z2 z3 z4 : Char)
      (mon : List Char),
      d1.isDigit = true → d2.isDigit = true →
      y1.isDigit = true → y2.isDigit = true → y3.isDigit = true → y4.isDigit = true →
      h1.isDigit = true → h2.isDigit = true →
      i1.isDigit = true → i2.isDigit = true →
      s1.isDigit = true → s2.isDigit = true →
      z1.isDigit = true → z2.isDigit = true → z3.isDigit = true → z4.isDigit = true →
      (sg = '+' ∨ sg = '-') →
      ' ' ∉ mon → '/' ∉ mon → mon ≠ [] →
      monthsLookup mon = none →
      parseTimestamp now (String.mk (vendorTs [d1, d2] mon [y1, y2, y3, y4] [h1, h2]
          [i1, i2] [s1, s2] (sg :: [z1, z2, z3, z4]))) = now) ∧
    (∀ (now : String) (d1 d2 y1 y2 y3 y4 h1 h2 i1 i2 s1 s2 sg z1 z2 z3 z4 a b : Char)
      (mon : List Char),
      d1.isDigit = false → d1 ≠ ' ' → d1 ≠ '/' →
      d2.isDigit = true →
      y1.isDigit = true → y2.isDigit = true → y3.isDigit = true → y4.isDigit = true →
      h1.isDigit = true → h2.isDigit = true →
      i1.isDigit = true → i2.isDigit = true →
      s1.isDigit = true → s2.isDigit = true →
      z1.isDigit = true → z2.isDigit = true → z3.isDigit = true → z4.isDigit = true →
      (sg = '+' ∨ sg = '-') →
      monthsLookup mon = some [a, b] →
      parseTimestamp now (String.mk (vendorTs [d1, d2] mon [y1, y2, y3, y4] [h1, h2]
          [i1, i2] [s1, s2] (sg :: [z1, z2, z3, z4]))) = now) := by
  refine ⟨fun now now' ts r h => by simp [parseTimestamp, h],
    fun now ts h => by simp [parseTimestamp, h],
    fun now d1 d2 y1 y2 y3 y4 h1 h2 i1 i2 s1 s2 sg z1 z2 z3 z4 a b mon
      hd1 hd2 hy1 hy2 hy3 hy4 hh1 hh2 hi1 hi2 hs1 hs2 hz1 hz2 hz3 hz4 hsg hmon
      hdlo hdhi hhh hmi hss hzh hzm => ?_,
    parseTimestamp_no_space,
    fun now d1 d2 y1 y2 y3 y4 h1 h2 i1 i2 s1 s2 sg z1 z2 z3 z4 mon
      hd1 hd2 hy1 hy2 hy3 hy4 hh1 hh2 hi1 hi2 hs1 hs2 hz1 hz2 hz3 hz4 hsg
      hmsp hmsl hmne hmon => ?_,
    fun now d1 d2 y1 y2 y3 y4 h1 h2 i1 i2 s1 s2 sg z1 z2 z3 z4 a b mon
      hd1 hdn1 hdn2 hd2 hy1 hy2 hy3 hy4 hh1 hh2 hi1 hi2 hs1 hs2 hz1 hz2 hz3 hz4
      hsg hmon => ?_⟩
  · rw [parseTimestamp, parseTimestampCore_canonical d1 d2 y1 y2 y3 y4 h1 h2 i1 i2 s1 s2
      sg z1 z2 z3 z4 a b mon hd1 hd2 hy1 hy2 hy3 hy4 hh1 hh2 hi1 hi2 hs1 hs2
      hz1 hz2 hz3 hz4 hsg hmon hdlo hdhi hhh hmi hss hzh hzm]
    rfl
  · rw [parseTimestamp, parseTimestampCore_bad_month d1 d2 y1 y2 y3 y4 h1 h2 i1 i2 s1 s2
      sg z1 z2 z3 z4 mon hd1 hd2 hy1 hy2 hy3 hy4 hh1 hh2 hi1 hi2 hs1 hs2
      hz1 hz2 hz3 hz4 hsg hmsp hmsl hmne hmon]
    rfl
  · rw [parseTimestamp, parseTimestampCore_bad_day d1 d2 y1 y2 y3 y4 h1 h2 i1 i2 s1 s2
      sg z1 z2 z3 z4 a b mon hd1 hdn1 hdn2 hd2 hy1 hy2 hy3 hy4 hh1 hh2 hi1 hi2 hs1 hs2
      hz1 hz2 hz3 hz4 hsg hmon]
    rfl

/-- C2 witness: the amended theorem's canonical branch at the concrete
timestamp `10/Jan/2024:10:00:00 +0000`. -/
theorem c2_witness :
    parseTimestamp "1999-01-01T00:00:00.000Z"
      (String.mk (vendorTs ['1', '0'] "Jan".toList ['2', '0', '2', '4'] ['1', '0']
        ['0', '0'] ['0', '0'] ('+' :: ['0', '0', '0', '0'])))
      = toISOStringOf (epochOfCivil (natOfDigits ['2', '0', '2', '4'])
          (natOfDigits ['0', '1']) (natOfDigits ['1', '0']) (natOfDigits ['1', '0'])
          (natOfDigits ['0', '0']) (natOfDigits ['0', '0']) (natOfDigits ['0', '0', '0'])
          ((if '+' = '-' then -1 else 1) *
            (natOfDigits ['0', '0'] * 60 + natOfDigits ['0', '0'] : Nat))) :=
  c2_timestamp_amended.2.2.1 "1999-01-01T00:00:00.000Z" '1' '0' '2' '0' '2' '4'
    '1' '0' '0' '0' '0' '0' '+' '0' '0' '0' '0' '0' '1' "Jan".toList
    (by decide) (by decide) (by decide) (by decide) (by decide) (by decide)
    (by decide) (by decide) (by decide) (by decide) (by decide) (by decide)
    (by decide) (by decide) (by decide) (by decide) (Or.inl rfl)
    (by decide) (by decide) (by decide) (by decide) (by decide) (by decide)
    (by decide) (by decide)

end WebLog
